import Mathlib

/-!
# Stressless Styling: the booking wizard, the dashboard and the Google sign-in widget

A shallow embedding of the three Lightning Web Components
(`bookingModal.js`, `dashboard.js`, `googleAuth.js`) and the properties
their specification states about them.

Conventions of the embedding.

* A component instance is a record of its fields; a method is a function on
  that record.  A JavaScript number is an integer-valued double, held as
  an `Int`; a sum of two of them is rounded to the nearest double (`jsAdd`).
  Fractional numbers, `NaN` and the infinities are outside the model.
* The value an awaited remote procedure settles with is an argument of the
  method (`Except JsErr _`: rejected or fulfilled).  Where it matters that
  other handlers run while a call is pending, the method is split at its
  `await` into a `Begin` and a `Settle` half.
* What a method does to the outside (remote calls, dispatched events, writes
  to browser storage) is appended to a `trace` field, which is
  instrumentation and not a field of the source.  `console.log` is dropped.
* Built-ins of the browser that the source calls and that have no finite
  description here (`JSON.parse`, `atob`, date formatting, ...) are fields
  of a `Platform` record the methods take as an argument.
-/

/-! ## JavaScript values -/

/-- A primitive JavaScript value. -/
inductive Prim where
  | undefined
  | null
  | bool (b : Bool)
  | num (n : Int)
  | str (s : String)
  deriving DecidableEq, Repr

namespace Prim

/-- The truthiness of a value (`if (v)`, `!v`, `v || w`). -/
def truthy : Prim → Bool
  | undefined => false
  | null => false
  | bool b => b
  | num n => n != 0
  | str s => s != ""

/-- The operator `v || w` on primitives. -/
def or (v w : Prim) : Prim := if v.truthy then v else w

/-- The string a template literal or a `+ ''` turns a value into (a number is
printed in plain decimal, as the engine does below `10 ^ 21` in size). -/
def toStr : Prim → String
  | undefined => "undefined"
  | null => "null"
  | bool true => "true"
  | bool false => "false"
  | num n => toString n
  | str s => s

end Prim

/-- How many low bits a natural number loses when it is held in the 53 bits
of a double's significand: the least `e` with `n < 2 ^ (53 + e)`. -/
def dropBits : Nat → Nat → Nat → Nat
  | 0, _, e => e
  | fuel + 1, n, e => if n < 2 ^ (53 + e) then e else dropBits fuel n (e + 1)

/-- The double nearest to a natural number (below `2 ^ 1024`): the number
itself when it fits in 53 bits, else the nearest multiple of `2 ^ e`, a tie
going to the even significand. -/
def roundNat (n : Nat) : Nat :=
  let e := dropBits n n 0
  if e = 0 then n
  else
    let q := n / 2 ^ e
    let r := n % 2 ^ e
    let half := 2 ^ (e - 1)
    if r > half ∨ (r = half ∧ q % 2 = 1) then (q + 1) * 2 ^ e else q * 2 ^ e

/-- The double nearest to an integer (of magnitude below `2 ^ 1024`). -/
def roundToDouble (z : Int) : Int :=
  if z < 0 then -(roundNat z.natAbs : Int) else (roundNat z.natAbs : Int)

/-- The operator `a + b` on two integer-valued doubles: the exact sum,
rounded to the nearest double. -/
def jsAdd (a b : Int) : Int := roundToDouble (a + b)

/-- The value of `element.dataset.x`: the attribute's string, or `undefined`
when the attribute is absent. -/
def dataAttr : Option String → Prim
  | none => Prim.undefined
  | some s => Prim.str s

/-- A reference that is `null`, `undefined` or an object. -/
inductive Nullable (α : Type) where
  | null
  | undefined
  | val (a : α)
  deriving DecidableEq, Repr

/-- A flat object: its own enumerable properties in insertion order. -/
abbrev Fields := List (String × Prim)

/-- What a rejected remote call or a throwing built-in hands to `catch`:
`bodyMessage` is `err.body?.message` when that is a string, `none` when
`err.body` or its `message` is missing. -/
structure JsErr where
  bodyMessage : Option String
  deriving DecidableEq, Repr

/-- The expression `err.body?.message || fallback`. -/
def JsErr.messageOr (e : JsErr) (fallback : String) : String :=
  match e.bodyMessage with
  | some m => if m != "" then m else fallback
  | none => fallback

/-- A `TypeError` raised by the engine (it has no `body`). -/
def typeError : JsErr := { bodyMessage := none }

/-- A value with one level of structure: a primitive, a flat object, or an
array whose elements are flat objects, `null` or `undefined` (deeper
nesting is outside the model). -/
inductive JsVal where
  | prim (p : Prim)
  | obj (o : Fields)
  | arr (items : List (Nullable Fields))
  deriving DecidableEq, Repr

/-- The property `o[k]` of a flat object: the first entry, `undefined` when
there is none. -/
def Fields.get (o : Fields) (k : String) : Prim :=
  match o with
  | [] => Prim.undefined
  | (k1, v) :: more => if k1 = k then v else Fields.get more k

namespace JsVal

/-- The JavaScript `null`. -/
def null : JsVal := prim Prim.null

/-- The JavaScript `undefined`. -/
def undefined : JsVal := prim Prim.undefined

/-- The truthiness of a value: every object and array is truthy. -/
def truthy : JsVal → Bool
  | prim p => p.truthy
  | obj _ => true
  | arr _ => true

/-- Whether a value is `null` or `undefined`: reading a property of such a
value throws a `TypeError`. -/
def nullish : JsVal → Bool
  | prim Prim.undefined => true
  | prim Prim.null => true
  | _ => false

/-- The property `v.k` of a value that is not nullish (own data properties
only: a primitive or an array has none of the names the source reads). -/
def prop (v : JsVal) (k : String) : Prim :=
  match v with
  | obj o => o.get k
  | _ => Prim.undefined

/-- The string a template literal turns a value into. -/
def toStr : JsVal → String
  | prim p => p.toStr
  | obj _ => "[object Object]"
  | arr items => ",".intercalate (items.map fun it =>
      match it with
      | .val _ => "[object Object]"
      | _ => "")

end JsVal

/-- A record whose fields may be structured (an appointment): its own
enumerable properties in insertion order. -/
abbrev Record := List (String × JsVal)

/-- The property `r[k]` of a record, `undefined` when there is none. -/
def Record.get (r : Record) (k : String) : JsVal :=
  match r with
  | [] => JsVal.undefined
  | (k1, v) :: more => if k1 = k then v else Record.get more k

/-- Whether a record has an own property `k`. -/
def Record.has (r : Record) (k : String) : Bool := r.any fun kv => kv.1 == k

/-- Defining property `k` in an object literal after a spread: an existing
property keeps its place and takes the new value, a new one goes last. -/
def Record.set (r : Record) (k : String) (v : JsVal) : Record :=
  if r.has k then r.map fun kv => if kv.1 = k then (k, v) else kv
  else r ++ [(k, v)]

/-- The built-ins of the browser the components call. -/
structure Platform where
  /-- The built-in `JSON.parse` on a string. -/
  jsonParse : String → Except JsErr JsVal
  /-- The built-in `JSON.stringify` on a flat object. -/
  jsonStringify : Fields → String
  /-- The built-in `atob`. -/
  atob : String → Except JsErr String
  /-- The built-in `decodeURIComponent`. -/
  decodeURIComponent : String → Except JsErr String
  /-- The call `new Date(v).toLocaleDateString('en-US', ...)` with the dashboard's options. -/
  toLocaleDateString : JsVal → String
  /-- The conversion `Number(s)` of a string: `none` is `NaN`. -/
  stringToNumber : String → Option Int
  /-- The call `parseInt(v, 10)`: `none` is `NaN`. -/
  parseInt10 : Prim → Option Int

/-- How a (part of a) method ends: the state it leaves, and the exception
that escapes it, if any. -/
structure Completion (σ : Type) where
  state : σ
  thrown : Option JsErr

/-- Normal completion. -/
def Completion.normal {σ : Type} (s : σ) : Completion σ := { state := s, thrown := none }

/-- Abrupt completion: `e` is thrown in state `s`. -/
def Completion.throw {σ : Type} (e : JsErr) (s : σ) : Completion σ :=
  { state := s, thrown := some e }

/-- Sequencing: run `k` after `c` unless `c` threw. -/
def Completion.andThen {σ : Type} (c : Completion σ) (k : σ → Completion σ) : Completion σ :=
  match c.thrown with
  | none => k c.state
  | some _ => c

/-- The statement `try { body } catch (err) { handler } finally { fin }`. -/
def tryCatchFinally {σ : Type} (body : Completion σ) (handler : JsErr → σ → Completion σ)
    (fin : σ → σ) : Completion σ :=
  let caught := match body.thrown with
    | none => body
    | some e => handler e body.state
  { state := fin caught.state, thrown := caught.thrown }

/-- The statement `try { body } catch (err) { handler }`. -/
def tryCatchBlock {σ : Type} (body : Completion σ) (handler : JsErr → σ → Completion σ) :
    Completion σ :=
  tryCatchFinally body handler id

/-! ## bookingModal.js -/

namespace BookingModal

/-- A stylist record as the server sends it. -/
structure Stylist where
  stylistId : Prim
  rest : Fields
  deriving DecidableEq, Repr

/-- An element of the `stylists` getter: the record with its selection state. -/
structure StylistCard where
  stylist : Stylist
  isSelected : Bool
  cardClass : String
  deriving DecidableEq, Repr

/-- A service record: `duration` is `none` when the field is missing or null. -/
structure Service where
  serviceId : Prim
  name : Prim
  duration : Option Int
  rest : Fields
  deriving DecidableEq, Repr

/-- A service category with its services. -/
structure Category where
  services : List Service
  rest : Fields
  deriving DecidableEq, Repr

/-- A bookable slot. -/
structure Slot where
  value : Prim
  displayTime : Prim
  deriving DecidableEq, Repr

/-- What the component does to the outside. -/
inductive Effect where
  | getAvailableStylists
  | getServiceCategories
  | getAvailableSlots (stylistId selectedDate : Prim) (durationMinutes : Int)
  | createAppointment (customerId stylistId appointmentDate : Prim) (startTimeMs : Option Int)
      (serviceIds : List Prim) (notes : String)
  | bookingsuccess
  deriving DecidableEq, Repr

/-- The fields of a `BookingModal` instance. -/
structure State where
  contactId : Prim
  isOpen : Bool
  currentStep : Int
  isLoading : Bool
  error : String
  _stylists : List Stylist
  serviceCategories : List Category
  availableSlots : List Slot
  selectedStylistId : Prim
  selectedStylist : Nullable StylistCard
  selectedServices : List Service
  selectedDate : Prim
  selectedSlot : Prim
  notes : String
  trace : List Effect
  deriving DecidableEq, Repr

/-- The instance as the field initialisers leave it; `contactId` is set by
the parent. -/
def init (contactId : Prim) : State :=
  { contactId := contactId
    isOpen := false
    currentStep := 1
    isLoading := false
    error := ""
    _stylists := []
    serviceCategories := []
    availableSlots := []
    selectedStylistId := Prim.null
    selectedStylist := Nullable.null
    selectedServices := []
    selectedDate := Prim.null
    selectedSlot := Prim.null
    notes := ""
    trace := [] }

/-- The getter `stylists`. -/
def stylists (s : State) : List StylistCard :=
  s._stylists.map fun st =>
    { stylist := st
      isSelected := st.stylistId == s.selectedStylistId
      cardClass := if st.stylistId == s.selectedStylistId
        then "slds-card stylist-card selected" else "slds-card stylist-card" }

/-- The getter `canGoBack`. -/
def canGoBack (s : State) : Bool := s.currentStep > 1

/-- The getter `canGoNext`. -/
def canGoNext (s : State) : Bool :=
  if s.currentStep = 1 then s.selectedStylistId != Prim.null
  else if s.currentStep = 2 then s.selectedServices.length > 0
  else if s.currentStep = 3 then s.selectedSlot != Prim.null
  else false

/-- The getter `disableNext`. -/
def disableNext (s : State) : Bool := !canGoNext s

/-- The expression `svc.duration || 0`. -/
def durationOrZero (svc : Service) : Int :=
  match svc.duration with
  | some d => if d != 0 then d else 0
  | none => 0

/-- The getter `totalDuration`: a left fold from 0, as `reduce` does, each
`+` being the addition of doubles. -/
def totalDuration (s : State) : Int :=
  s.selectedServices.foldl (fun sum svc => jsAdd sum (durationOrZero svc)) 0

/-- The getter `formattedTotalDuration`. -/
def formattedTotalDuration (s : State) : String :=
  (Prim.num (totalDuration s)).toStr ++ " min"

/-- The method `resetBooking`. -/
def resetBooking (s : State) : State :=
  { s with
    currentStep := 1
    selectedStylistId := Prim.null
    selectedStylist := Nullable.null
    selectedServices := []
    selectedDate := Prim.null
    selectedSlot := Prim.null
    notes := ""
    error := ""
    availableSlots := [] }

/-- The method `loadStylists` up to its `await`. -/
def loadStylistsBegin (s : State) : State :=
  { s with isLoading := true, trace := s.trace ++ [Effect.getAvailableStylists] }

/-- The method `loadStylists` from the moment the awaited call settles. -/
def loadStylistsSettle (r : Except JsErr (List Stylist)) (s : State) : Completion State :=
  tryCatchFinally
    (match r with
      | .ok v => Completion.normal { s with _stylists := v }
      | .error e => Completion.throw e s)
    (fun _ s => Completion.normal { s with error := "Error loading stylists" })
    (fun s => { s with isLoading := false })

/-- The method `loadStylists`, run to completion. -/
def loadStylists (r : Except JsErr (List Stylist)) (s : State) : Completion State :=
  loadStylistsSettle r (loadStylistsBegin s)

/-- The method `loadServices` up to its `await`. -/
def loadServicesBegin (s : State) : State :=
  { s with isLoading := true, trace := s.trace ++ [Effect.getServiceCategories] }

/-- The method `loadServices` from the moment the awaited call settles. -/
def loadServicesSettle (r : Except JsErr (List Category)) (s : State) : Completion State :=
  tryCatchFinally
    (match r with
      | .ok v => Completion.normal { s with serviceCategories := v }
      | .error e => Completion.throw e s)
    (fun _ s => Completion.normal { s with error := "Error loading services" })
    (fun s => { s with isLoading := false })

/-- The method `loadServices`, run to completion. -/
def loadServices (r : Except JsErr (List Category)) (s : State) : Completion State :=
  loadServicesSettle r (loadServicesBegin s)

/-- The guard of `loadTimeSlots`: whether it makes the remote call. -/
def slotsWanted (s : State) : Bool :=
  !(!s.selectedStylistId.truthy || !s.selectedDate.truthy || totalDuration s == 0)

/-- The method `loadTimeSlots` up to its `await` (or to its early return). -/
def loadTimeSlotsBegin (s : State) : State :=
  if slotsWanted s then
    { s with
      isLoading := true
      trace := s.trace ++
        [Effect.getAvailableSlots s.selectedStylistId s.selectedDate (totalDuration s)] }
  else
    { s with availableSlots := [] }

/-- The method `loadTimeSlots` from the moment the awaited call settles. -/
def loadTimeSlotsSettle (r : Except JsErr (List Slot)) (s : State) : Completion State :=
  tryCatchFinally
    (match r with
      | .ok v => Completion.normal { s with availableSlots := v }
      | .error e => Completion.throw e s)
    (fun _ s => Completion.normal { s with error := "Error loading available times" })
    (fun s => { s with isLoading := false })

/-- The method `loadTimeSlots`, run to completion: the call is only made,
and so only settles, when the guard lets it through. -/
def loadTimeSlots (r : Except JsErr (List Slot)) (s : State) : Completion State :=
  if slotsWanted s then loadTimeSlotsSettle r (loadTimeSlotsBegin s)
  else Completion.normal (loadTimeSlotsBegin s)

/-- The method `open`, up to the `await` inside `loadStylists`. -/
def «open» (s : State) : State :=
  loadStylistsBegin (resetBooking { s with isOpen := true })

/-- The method `close`. -/
def close (s : State) : State :=
  resetBooking { s with isOpen := false }

/-- The handler `handleClose`. -/
def handleClose (s : State) : State := close s

/-- The handler `handleStylistSelect`; `id` is `event.currentTarget.dataset.id`. -/
def handleStylistSelect (id : Option String) (s : State) : State :=
  let stylistId := dataAttr id
  let s1 := { s with selectedStylistId := stylistId }
  { s1 with
    selectedStylist :=
      match (stylists s1).find? (fun c => c.stylist.stylistId == stylistId) with
      | some c => Nullable.val c
      | none => Nullable.undefined }

/-- The loop of `handleServiceToggle`: the service of the first category
that has one with this id. -/
def findService (cats : List Category) (serviceId : Prim) : Option Service :=
  match cats with
  | [] => none
  | cat :: more =>
    match cat.services.find? (fun sv => sv.serviceId == serviceId) with
    | some service => some service
    | none => findService more serviceId

/-- The handler `handleServiceToggle`; `id` is `event.currentTarget.dataset.id`
and `isChecked` is `event.target.checked`. -/
def handleServiceToggle (id : Option String) (isChecked : Bool) (s : State) : State :=
  let serviceId := dataAttr id
  if isChecked then
    match findService s.serviceCategories serviceId with
    | some service => { s with selectedServices := s.selectedServices ++ [service] }
    | none => s
  else
    { s with selectedServices := s.selectedServices.filter (fun sv => sv.serviceId != serviceId) }

/-- The handler `handleDateChange`, up to the `await` inside `loadTimeSlots`;
`value` is `event.target.value`. -/
def handleDateChange (value : String) (s : State) : State :=
  loadTimeSlotsBegin { s with selectedDate := Prim.str value, selectedSlot := Prim.null }

/-- The handler `handleSlotSelect`; `value` is `event.currentTarget.dataset.value`. -/
def handleSlotSelect (value : Option String) (s : State) : State :=
  { s with selectedSlot := dataAttr value }

/-- The handler `handleNotesChange`; `value` is `event.target.value`. -/
def handleNotesChange (value : String) (s : State) : State :=
  { s with notes := value }

/-- The handler `handleBack`. -/
def handleBack (s : State) : State :=
  if s.currentStep > 1 then { s with currentStep := s.currentStep - 1 } else s

/-- The handler `handleNext`, up to the `await` inside `loadServices`. -/
def handleNext (s : State) : State :=
  if s.currentStep < 4 && canGoNext s then
    let s1 := { s with currentStep := s.currentStep + 1 }
    if s1.currentStep = 2 then loadServicesBegin s1 else s1
  else s

/-- The handler `handleConfirmBooking`, run to completion; `r` is what
`createAppointment` settles with. -/
def handleConfirmBooking (P : Platform) (r : Except JsErr Unit) (s : State) : Completion State :=
  if !s.contactId.truthy then
    Completion.normal { s with error := "Please sign in to book an appointment" }
  else
    let s1 := { s with isLoading := true, error := "" }
    tryCatchFinally
      (let serviceIds := s1.selectedServices.map fun sv => sv.serviceId
       let s2 := { s1 with
         trace := s1.trace ++
           [Effect.createAppointment s1.contactId s1.selectedStylistId s1.selectedDate
             (P.parseInt10 s1.selectedSlot) serviceIds s1.notes] }
       match r with
       | .ok _ => Completion.normal (close { s2 with trace := s2.trace ++ [Effect.bookingsuccess] })
       | .error e => Completion.throw e s2)
      (fun err s =>
        Completion.normal
          { s with error := err.messageOr "Error creating appointment. Please try again." })
      (fun s => { s with isLoading := false })

/-- What can happen to an instance: a public method or an event handler is
invoked, or a pending remote call settles. -/
inductive Event where
  | «open»
  | close
  | handleNext
  | handleBack
  | handleStylistSelect (id : Option String)
  | handleServiceToggle (id : Option String) (isChecked : Bool)
  | handleDateChange (value : String)
  | handleSlotSelect (value : Option String)
  | handleNotesChange (value : String)
  | stylistsSettled (r : Except JsErr (List Stylist))
  | servicesSettled (r : Except JsErr (List Category))
  | slotsSettled (r : Except JsErr (List Slot))

/-- One event applied to an instance. -/
def step (s : State) : Event → State
  | .«open» => «open» s
  | .close => close s
  | .handleNext => handleNext s
  | .handleBack => handleBack s
  | .handleStylistSelect id => handleStylistSelect id s
  | .handleServiceToggle id isChecked => handleServiceToggle id isChecked s
  | .handleDateChange value => handleDateChange value s
  | .handleSlotSelect value => handleSlotSelect value s
  | .handleNotesChange value => handleNotesChange value s
  | .stylistsSettled r => (loadStylistsSettle r s).state
  | .servicesSettled r => (loadServicesSettle r s).state
  | .slotsSettled r => (loadTimeSlotsSettle r s).state

/-- A sequence of events applied in order. -/
def run (s : State) (events : List Event) : State := events.foldl step s

/-- The condition under which the wizard may advance, as the claim words it. -/
def mayAdvance (s : State) : Bool :=
  (s.currentStep == 1 && s.selectedStylistId != Prim.null) ||
  (s.currentStep == 2 && !s.selectedServices.isEmpty) ||
  (s.currentStep == 3 && s.selectedSlot != Prim.null)

end BookingModal


/-! ## Browser storage -/

/-- A storage area (`localStorage` or `sessionStorage`): keys with their strings. -/
abbrev Storage := List (String × String)

namespace Storage

/-- The call `getItem(key)`: `none` is `null`. -/
def getItem (st : Storage) (key : String) : Option String :=
  match st with
  | [] => none
  | (k, v) :: more => if k = key then some v else getItem more key

/-- The call `removeItem(key)`. -/
def removeItem (st : Storage) (key : String) : Storage :=
  st.filter fun kv => kv.1 != key

/-- The call `setItem(key, value)`. -/
def setItem (st : Storage) (key value : String) : Storage :=
  (key, value) :: removeItem st key

end Storage

/-- The two storage areas of the page. -/
structure Browser where
  localStorage : Storage
  sessionStorage : Storage
  deriving DecidableEq, Repr

/-- Whether a string read from storage is truthy (`if (storedSession)`). -/
def storedTruthy : Option String → Bool
  | none => false
  | some v => v != ""

/-! ## dashboard.js -/

namespace Dashboard

/-- The constant `SESSION_KEY`. -/
def SESSION_KEY : String := "stressless_user_session"

/-- What the component does to the outside. -/
inductive Effect where
  | getCustomerAppointments (contactId : Prim)
  | getCustomerPastAppointments (contactId : Prim)
  | getStylistAppointments (stylistId : Prim)
  | getStylistPastAppointments (stylistId : Prim)
  | getAvailableStylists
  | confirm (message : String)
  | cancelAppointment (appointmentId : Prim) (reason : String)
  deriving DecidableEq, Repr

/-- The fields of a `Dashboard` instance (`error` starts out `undefined`). -/
structure State where
  userSession : JsVal
  upcomingAppointments : List Record
  pastAppointments : List Record
  stylists : List Record
  isLoading : Bool
  error : Prim
  showAppointmentDetail : Bool
  selectedAppointment : Option Record
  trace : List Effect
  deriving DecidableEq, Repr

/-- The instance as the field initialisers leave it. -/
def init : State :=
  { userSession := JsVal.null
    upcomingAppointments := []
    pastAppointments := []
    stylists := []
    isLoading := true
    error := Prim.undefined
    showAppointmentDetail := false
    selectedAppointment := none
    trace := [] }

/-- The conversion of a value to a number (`v / 3600000`): `none` is `NaN`. -/
def toNumber (P : Platform) : JsVal → Option Int
  | .prim .undefined => none
  | .prim .null => some 0
  | .prim (.bool b) => some (if b then 1 else 0)
  | .prim (.num n) => some n
  | .prim (.str s) => P.stringToNumber s
  | .obj _ => none
  | .arr [] => some 0
  | .arr [.val _] => none
  | .arr [_] => some 0
  | .arr (_ :: _ :: _) => none

/-- The call `s.padStart(2, '0')`. -/
def padStart2 (s : String) : String :=
  if s.length ≥ 2 then s else String.mk (List.replicate (2 - s.length) '0') ++ s

/-- The time block of `formatAppointment` for a truthy `startTime`:
`Math.floor` of a quotient by a positive number is `/` on `Int`, and the
remainder `%` takes the sign of the dividend (`Int.tmod`). -/
def formatTime (P : Platform) (startTime : JsVal) : String :=
  match toNumber P startTime with
  | some t =>
    let hours := t / 3600000
    let minutes := (Int.tmod t 3600000) / 60000
    let ampm := if hours ≥ 12 then "PM" else "AM"
    let displayHours := if Int.tmod hours 12 != 0 then Int.tmod hours 12 else 12
    toString displayHours ++ ":" ++ padStart2 (toString minutes) ++ " " ++ ampm
  | none => "12:NaN AM"

/-- The call `list.join(', ')` on property values: `undefined` and `null`
become the empty string. -/
def joinNames (names : List Prim) : String :=
  ", ".intercalate (names.map fun p =>
    match p with
    | .undefined => ""
    | .null => ""
    | q => q.toStr)

/-- The call `services.map(s => s.serviceName)`: reading `serviceName` of
an element that is `null` or `undefined` throws a `TypeError`. -/
def mapServiceName : List (Nullable Fields) → Except JsErr (List Prim)
  | [] => .ok []
  | .val o :: more =>
    match mapServiceName more with
    | .ok names => .ok (Fields.get o "serviceName" :: names)
    | .error e => .error e
  | _ :: _ => .error typeError

/-- The expression `apt.services?.map(s => s.serviceName).join(', ') || ''`:
a value that is neither nullish nor an array has no `map`. -/
def serviceNamesOf (services : JsVal) : Except JsErr String :=
  match services with
  | .prim .undefined => .ok ""
  | .prim .null => .ok ""
  | .arr items =>
    match mapServiceName items with
    | .ok names => .ok (joinNames names)
    | .error e => .error e
  | _ => .error typeError

/-- The call `n.toFixed(2)` on an integer (below `10 ^ 21` in size). -/
def toFixed2 (n : Int) : String := toString n ++ ".00"

/-- The expression for `formattedPrice`: only a number has `toFixed`. -/
def formattedPriceOf (totalPrice : JsVal) : Except JsErr String :=
  if totalPrice.truthy then
    match totalPrice with
    | .prim (.num n) => .ok ("$" ++ toFixed2 n)
    | _ => .error typeError
  else .ok ""

/-- The method `getStatusClass` (own properties of `statusMap` only). -/
def getStatusClass (status : JsVal) : String :=
  let key := status.toStr
  if key = "Scheduled" then "slds-badge slds-badge_lightest"
  else if key = "Confirmed" then "slds-badge slds-theme_success"
  else if key = "Completed" then "slds-badge slds-theme_info"
  else if key = "Cancelled" then "slds-badge slds-theme_error"
  else if key = "No Show" then "slds-badge slds-theme_warning"
  else "slds-badge"

/-- The expression `['Scheduled', 'Confirmed'].includes(apt.status)`. -/
def canCancelOf (status : JsVal) : Bool :=
  ["Scheduled", "Confirmed"].any fun x => status == JsVal.prim (Prim.str x)

/-- The method `formatAppointment`. -/
def formatAppointment (P : Platform) (apt : Record) : Except JsErr Record := do
  let formattedDate :=
    if (apt.get "appointmentDate").truthy then P.toLocaleDateString (apt.get "appointmentDate")
    else ""
  let formattedTime :=
    if (apt.get "startTime").truthy then formatTime P (apt.get "startTime") else ""
  let serviceNames ← serviceNamesOf (apt.get "services")
  let canCancel := canCancelOf (apt.get "status")
  let formattedPrice ← formattedPriceOf (apt.get "totalPrice")
  let formattedDuration :=
    if (apt.get "totalDuration").truthy then (apt.get "totalDuration").toStr ++ " min" else ""
  let str := fun (x : String) => JsVal.prim (Prim.str x)
  pure <|
    ((((((((Record.set apt "formattedDate" (str formattedDate)).set
      "formattedTime" (str formattedTime)).set
      "formattedDateTime" (str (formattedDate ++ " at " ++ formattedTime))).set
      "serviceNames" (str serviceNames)).set
      "formattedPrice" (str formattedPrice)).set
      "formattedDuration" (str formattedDuration)).set
      "statusClass" (str (getStatusClass (apt.get "status")))).set
      "canCancel" (JsVal.prim (Prim.bool canCancel)))

/-- The call `list.map(apt => this.formatAppointment(apt))`. -/
def formatAll (P : Platform) : List Record → Except JsErr (List Record)
  | [] => .ok []
  | apt :: more => do
    let a ← formatAppointment P apt
    let rest ← formatAll P more
    pure (a :: rest)

/-- The two assignments that end `loadCustomerAppointments` and
`loadStylistAppointments`: the first list is assigned before the second is
formatted. -/
def storeAppointments (P : Platform) (lists : List Record × List Record) (s : State) :
    Completion State :=
  match formatAll P lists.1 with
  | .error e => Completion.throw e s
  | .ok upcoming =>
    let s1 := { s with upcomingAppointments := upcoming }
    match formatAll P lists.2 with
    | .error e => Completion.throw e s1
    | .ok past => Completion.normal { s1 with pastAppointments := past }

/-- The method `loadCustomerAppointments`; `r` is what `Promise.all` settles with. -/
def loadCustomerAppointments (P : Platform) (r : Except JsErr (List Record × List Record))
    (s : State) : Completion State :=
  let contactId := s.userSession.prop "contactId"
  let s1 := { s with
    trace := s.trace ++
      [Effect.getCustomerAppointments contactId, Effect.getCustomerPastAppointments contactId] }
  match r with
  | .error e => Completion.throw e s1
  | .ok lists => storeAppointments P lists s1

/-- The method `loadStylistAppointments`; `r` is what `Promise.all` settles with. -/
def loadStylistAppointments (P : Platform) (r : Except JsErr (List Record × List Record))
    (s : State) : Completion State :=
  let stylistId := s.userSession.prop "stylistId"
  let s1 := { s with
    trace := s.trace ++
      [Effect.getStylistAppointments stylistId, Effect.getStylistPastAppointments stylistId] }
  match r with
  | .error e => Completion.throw e s1
  | .ok lists => storeAppointments P lists s1

/-- The method `loadAppointments`, run to completion. -/
def loadAppointments (P : Platform) (r : Except JsErr (List Record × List Record))
    (s : State) : Completion State :=
  if !s.userSession.truthy then Completion.normal s
  else
    let s1 := { s with isLoading := true }
    tryCatchFinally
      (if ((s1.userSession.prop "isStylist").truthy
            && (s1.userSession.prop "stylistId").truthy) then
        loadStylistAppointments P r s1
      else if (s1.userSession.prop "contactId").truthy then
        loadCustomerAppointments P r s1
      else Completion.normal s1)
      (fun err s =>
        Completion.normal { s with error := Prim.str (err.messageOr "Error loading appointments") })
      (fun s => { s with isLoading := false })

/-- The method `loadStylists`, run to completion. -/
def loadStylists (r : Except JsErr (List Record)) (s : State) : Completion State :=
  let s1 := { s with trace := s.trace ++ [Effect.getAvailableStylists] }
  tryCatchBlock
    (match r with
      | .ok v => Completion.normal { s1 with stylists := v }
      | .error e => Completion.throw e s1)
    (fun _ s => Completion.normal { s with stylists := [] })

/-- The method `checkStoredSession`; the `loadAppointments` it starts is
not awaited and is run to completion here, before the last assignment. -/
def checkStoredSession (P : Platform) (b : Browser)
    (r : Except JsErr (List Record × List Record)) (s : State) : Completion State :=
  (tryCatchBlock
    (let storedSession := b.localStorage.getItem SESSION_KEY
     if storedTruthy storedSession then
       match P.jsonParse (storedSession.getD "") with
       | .error e => Completion.throw e s
       | .ok v => loadAppointments P r { s with userSession := v }
     else Completion.normal s)
    (fun _ s => Completion.normal s)).andThen
  fun s => Completion.normal { s with isLoading := false }

/-- The handler `handleSignIn`; `detail` is `event.detail`. -/
def handleSignIn (P : Platform) (detail : JsVal) (r : Except JsErr (List Record × List Record))
    (s : State) : Completion State :=
  loadAppointments P r { s with userSession := detail }

/-- The handler `handleSignOut`. -/
def handleSignOut (s : State) : State :=
  { s with userSession := JsVal.null, upcomingAppointments := [], pastAppointments := [] }

/-- The handler `handleCancelAppointment`, run to completion; `id` and
`name` are the `data-id` and `data-name` of the target, `confirmed` is the
answer to the `confirm` dialog, `rc` is what `cancelAppointment` settles
with and `rl` what the reload's `Promise.all` does. -/
def handleCancelAppointment (P : Platform) (id name : Option String) (confirmed : Bool)
    (rc : Except JsErr Unit) (rl : Except JsErr (List Record × List Record))
    (s : State) : Completion State :=
  let appointmentId := dataAttr id
  let appointmentName := (dataAttr name).or (Prim.str "this appointment")
  let s0 := { s with
    trace := s.trace ++
      [Effect.confirm ("Are you sure you want to cancel " ++ appointmentName.toStr ++ "?")] }
  if !confirmed then Completion.normal s0
  else
    let s1 := { s0 with isLoading := true }
    tryCatchFinally
      (let s2 := { s1 with
         trace := s1.trace ++
           [Effect.cancelAppointment appointmentId "Cancelled by customer online"] }
       match rc with
       | .error e => Completion.throw e s2
       | .ok _ => loadAppointments P rl s2)
      (fun err s =>
        Completion.normal
          { s with error := Prim.str (err.messageOr "Error cancelling appointment") })
      (fun s => { s with isLoading := false })

end Dashboard

/-! ## googleAuth.js -/

namespace GoogleAuth

/-- The constant `SESSION_KEY`. -/
def SESSION_KEY : String := "stressless_user_session"

/-- The constant `USE_LOCAL_STORAGE`. -/
def USE_LOCAL_STORAGE : Bool := true

/-- The function `getStorage`. -/
def getStorage (b : Browser) : Storage :=
  if USE_LOCAL_STORAGE then b.localStorage else b.sessionStorage

/-- The browser after the area `getStorage` returns has become `st`. -/
def putStorage (b : Browser) (st : Storage) : Browser :=
  if USE_LOCAL_STORAGE then { b with localStorage := st } else { b with sessionStorage := st }

/-- What the component does to the outside; `getSession` and
`initializeSession` are the remote procedures, `signin` and `signout` the
dispatched events. -/
inductive Effect where
  | getSession (email : Prim)
  | initializeSession (email firstName lastName : Prim)
  | signin (detail : Fields)
  | signout
  | setItem (key value : String)
  | removeItem (key : String)
  | disableAutoSelect
  deriving DecidableEq, Repr

/-- The state shared by every instance on the page: the two module-level
flags, the browser's storage, and the trace. -/
structure Module where
  sessionAlreadyChecked : Bool
  signInEventDispatched : Bool
  browser : Browser
  trace : List Effect
  deriving DecidableEq, Repr

/-- The fields of a `GoogleAuth` instance. -/
structure State where
  googleClientId : Prim
  isLoading : Bool
  isSignedIn : Bool
  error : String
  userName : String
  userPicture : Prim
  _googleInitialized : Bool
  _userSession : JsVal
  deriving DecidableEq, Repr

/-- The instance as the field initialisers leave it. -/
def init (googleClientId : Prim) : State :=
  { googleClientId := googleClientId
    isLoading := true
    isSignedIn := false
    error := ""
    userName := ""
    userPicture := Prim.str ""
    _googleInitialized := false
    _userSession := JsVal.null }

/-- The module as it is when the script has just been loaded. -/
def Module.fresh (b : Browser) : Module :=
  { sessionAlreadyChecked := false, signInEventDispatched := false, browser := b, trace := [] }

/-- An instance together with the module state it shares. -/
structure World where
  page : Module
  self : State
  deriving DecidableEq, Repr

/-- Appending an effect to the trace. -/
def emit (e : Effect) (w : World) : World :=
  { w with page := { w.page with trace := w.page.trace ++ [e] } }

/-- The call `getStorage().setItem(key, value)`. -/
def setItem (key value : String) (w : World) : World :=
  emit (Effect.setItem key value)
    { w with page := { w.page with
        browser := putStorage w.page.browser ((getStorage w.page.browser).setItem key value) } }

/-- The call `getStorage().removeItem(key)`. -/
def removeItem (key : String) (w : World) : World :=
  emit (Effect.removeItem key)
    { w with page := { w.page with
        browser := putStorage w.page.browser ((getStorage w.page.browser).removeItem key) } }

/-- The template literal that joins a first and a last name. -/
def fullName (session : JsVal) : String :=
  (session.prop "firstName").toStr ++ " " ++ (session.prop "lastName").toStr

/-- The expression `this._userSession?.email`. -/
def ownEmail (s : State) : Prim :=
  if s._userSession.nullish then Prim.undefined else s._userSession.prop "email"

/-- The method `dispatchSignInEvent`. -/
def dispatchSignInEvent (session : JsVal) (w : World) : Completion World :=
  if session.nullish then Completion.throw typeError w
  else
    Completion.normal <| emit (Effect.signin
      [("email", (session.prop "email").or (ownEmail w.self)),
       ("firstName", session.prop "firstName"),
       ("lastName", session.prop "lastName"),
       ("contactId", session.prop "contactId"),
       ("stylistId", session.prop "stylistId"),
       ("isStylist", session.prop "isStylist"),
       ("isCustomer", session.prop "isCustomer"),
       ("userType", session.prop "userType"),
       ("title", session.prop "title")]) w

/-- The method `dispatchSignOutEvent`. -/
def dispatchSignOutEvent (w : World) : World := emit Effect.signout w

/-- The `catch` block of `checkExistingSession`. -/
def checkCatch (_err : JsErr) (w : World) : Completion World :=
  Completion.normal (removeItem SESSION_KEY w)

/-- The `finally` block of `checkExistingSession`. -/
def checkFinally (w : World) : World :=
  { w with self := { w.self with isLoading := false } }

/-- The first branch of `checkExistingSession`, taken when the module flag
is already set: the state is restored from storage; `JSON.parse` and the
property reads stand outside any `try`. -/
def restoreFromStorage (P : Platform) (w : World) : Completion World :=
  let storedSession := (getStorage w.page.browser).getItem SESSION_KEY
  (if storedTruthy storedSession then
    match P.jsonParse (storedSession.getD "") with
    | .error e => Completion.throw e w
    | .ok sessionData =>
      let w1 := { w with self := { w.self with _userSession := sessionData } }
      if sessionData.nullish then Completion.throw typeError w1
      else
        Completion.normal
          { w1 with self := { w1.self with userName := fullName sessionData, isSignedIn := true } }
  else Completion.normal w).andThen
  fun w => Completion.normal { w with self := { w.self with isLoading := false } }

/-- Where `checkExistingSession` stands when it first yields: finished, or
suspended at `await getSession(...)`. -/
inductive Begun where
  | done (c : Completion World)
  | awaiting (w : World)

/-- The method `checkExistingSession` up to its `await`, or to its end when
it never reaches it. -/
def checkExistingSessionBegin (P : Platform) (w : World) : Begun :=
  if w.page.sessionAlreadyChecked then Begun.done (restoreFromStorage P w)
  else
    let w1 := { w with page := { w.page with sessionAlreadyChecked := true } }
    let storedSession := (getStorage w1.page.browser).getItem SESSION_KEY
    if storedTruthy storedSession then
      match P.jsonParse (storedSession.getD "") with
      | .error e => Begun.done (tryCatchFinally (Completion.throw e w1) checkCatch checkFinally)
      | .ok sessionData =>
        if sessionData.nullish then
          Begun.done (tryCatchFinally (Completion.throw typeError w1) checkCatch checkFinally)
        else Begun.awaiting (emit (Effect.getSession (sessionData.prop "email")) w1)
    else Begun.done (tryCatchFinally (Completion.normal w1) checkCatch checkFinally)

/-- The method `checkExistingSession` from the moment `getSession` settles. -/
def checkExistingSessionSettle (resp : Except JsErr JsVal) (w : World) : Completion World :=
  tryCatchFinally
    (match resp with
      | .error e => Completion.throw e w
      | .ok serverSession =>
        if serverSession.truthy then
          let w1 := { w with self := { w.self with
            _userSession := serverSession
            userName := fullName serverSession
            isSignedIn := true } }
          if !w1.page.signInEventDispatched then
            dispatchSignInEvent serverSession
              { w1 with page := { w1.page with signInEventDispatched := true } }
          else Completion.normal w1
        else Completion.normal (removeItem SESSION_KEY w))
    checkCatch checkFinally

/-- The method `checkExistingSession`, run to completion. -/
def checkExistingSession (P : Platform) (resp : Except JsErr JsVal) (w : World) :
    Completion World :=
  match checkExistingSessionBegin P w with
  | .done c => c
  | .awaiting w1 => checkExistingSessionSettle resp w1

/-- The call `s.split(sep)` for a one-character separator, on the
characters of `s`: the segments between the separators. -/
def splitChars (sep : Char) : List Char → List (List Char)
  | [] => [[]]
  | c :: cs =>
    if c = sep then [] :: splitChars sep cs
    else
      match splitChars sep cs with
      | [] => [[c]]
      | seg :: more => (c :: seg) :: more

/-- The call `s.replace(/a/g, b)` for single characters `a` and `b`. -/
def replaceChar (a b : Char) (s : List Char) : List Char :=
  s.map fun c => if c = a then b else c

/-- The arrow function of `decodeJwt`: a character as `%` and the last two
characters of `'00'` followed by its code in hexadecimal. -/
def percentEncode (c : Char) : List Char :=
  let padded := ['0', '0'] ++ Nat.toDigits 16 c.toNat
  '%' :: padded.drop (padded.length - 2)

/-- The method `decodeJwt`: whatever throws inside is caught and gives `{}`
(a token that is no string has no `split`; a token without a second segment
gives `undefined`, which has no `replace`). -/
def decodeJwt (P : Platform) (token : Prim) : JsVal :=
  match token with
  | .str t =>
    match (splitChars '.' t.toList)[1]? with
    | none => JsVal.obj []
    | some base64Url =>
      let base64 := replaceChar '_' '/' (replaceChar '-' '+' base64Url)
      match P.atob (String.mk base64) with
      | .error _ => JsVal.obj []
      | .ok bin =>
        match P.decodeURIComponent (String.mk (bin.toList.map percentEncode).flatten) with
        | .error _ => JsVal.obj []
        | .ok jsonPayload =>
          match P.jsonParse jsonPayload with
          | .error _ => JsVal.obj []
          | .ok v => v
  | _ => JsVal.obj []

/-- The object literal `sessionData` of `handleCredentialResponse`. -/
def sessionData (email picture : Prim) (session : JsVal) : Fields :=
  [("email", email),
   ("firstName", session.prop "firstName"),
   ("lastName", session.prop "lastName"),
   ("contactId", session.prop "contactId"),
   ("stylistId", session.prop "stylistId"),
   ("isStylist", session.prop "isStylist"),
   ("isCustomer", session.prop "isCustomer"),
   ("userType", session.prop "userType"),
   ("title", session.prop "title"),
   ("picture", picture)]

/-- The method `handleCredentialResponse`, run to completion; `credential`
is `response.credential` and `resp` what `initializeSession` settles with. -/
def handleCredentialResponse (P : Platform) (credential : Prim) (resp : Except JsErr JsVal)
    (w : World) : Completion World :=
  let w1 := { w with self := { w.self with isLoading := true, error := "" } }
  tryCatchFinally
    (let payload := decodeJwt P credential
     if payload.nullish then Completion.throw typeError w1
     else
       let email := payload.prop "email"
       let firstName := (payload.prop "given_name").or (Prim.str "")
       let lastName := (payload.prop "family_name").or (Prim.str "")
       let picture := (payload.prop "picture").or (Prim.str "")
       let w2 := emit (Effect.initializeSession email firstName lastName) w1
       match resp with
       | .error e => Completion.throw e w2
       | .ok session =>
         if session.nullish then Completion.throw typeError w2
         else
           let w3 := setItem SESSION_KEY (P.jsonStringify (sessionData email picture session)) w2
           let w4 := { w3 with self := { w3.self with
             _userSession := session
             userName := fullName session
             userPicture := picture
             isSignedIn := true } }
           dispatchSignInEvent session w4)
    (fun err w =>
      Completion.normal
        { w with self := { w.self with error := err.messageOr "Sign-in failed. Please try again." } })
    (fun w => { w with self := { w.self with isLoading := false } })

/-- The method `handleSignOut`; `googleLoaded` is the value of
`window.google && window.google.accounts`. -/
def handleSignOut (googleLoaded : Bool) (w : World) : World :=
  let w1 := removeItem SESSION_KEY w
  let w2 := { w1 with page := { w1.page with
    sessionAlreadyChecked := false, signInEventDispatched := false } }
  let w3 := if googleLoaded then emit Effect.disableAutoSelect w2 else w2
  let w4 := { w3 with self := { w3.self with
    _userSession := JsVal.null, userName := "", userPicture := Prim.str "", isSignedIn := false } }
  let w5 := dispatchSignOutEvent w4
  { w5 with self := { w5.self with _googleInitialized := false } }

/-- The public method `getSession`. -/
def getSession (s : State) : JsVal := s._userSession

/-- The public method `checkSignedIn`. -/
def checkSignedIn (s : State) : Bool := s.isSignedIn

/-- One thing that happens on the page while sessions are being checked:
an instance (in any state) runs `checkExistingSession` up to its `await`,
or a pending `getSession` settles for an instance. -/
inductive Step where
  | invoke (self : State)
  | settle (self : State) (resp : Except JsErr JsVal)

/-- The module state where `checkExistingSession` first yields. -/
def Begun.page : Begun → Module
  | .done c => c.state.page
  | .awaiting w => w.page

/-- The module state after one step. -/
def stepModule (P : Platform) (m : Module) : Step → Module
  | .invoke self => (checkExistingSessionBegin P { page := m, self := self }).page
  | .settle self resp => (checkExistingSessionSettle resp { page := m, self := self }).state.page

/-- The module state after a sequence of steps. -/
def runSteps (P : Platform) (m : Module) (steps : List Step) : Module :=
  steps.foldl (stepModule P) m

/-- How many times the remote procedure `getSession` was called. -/
def getSessionCalls (trace : List Effect) : Nat :=
  trace.countP fun e => match e with
    | .getSession _ => true
    | _ => false

/-- How many times the `signin` event was dispatched. -/
def signinEvents (trace : List Effect) : Nat :=
  trace.countP fun e => match e with
    | .signin _ => true
    | _ => false

end GoogleAuth

/-! ## Predicates and examples used in the statements -/

namespace BookingModal

/-- The wizard's counter is on one of its four steps. -/
def onAStep (s : State) : Prop :=
  s.currentStep = 1 ∨ s.currentStep = 2 ∨ s.currentStep = 3 ∨ s.currentStep = 4

/-- The selections of all earlier steps are non-empty. -/
def EarlierStepsFilled (s : State) : Prop :=
  (2 ≤ s.currentStep → s.selectedStylistId ≠ Prim.null) ∧
  (3 ≤ s.currentStep → s.selectedServices ≠ []) ∧
  (s.currentStep = 4 → s.selectedSlot ≠ Prim.null)

/-- Whether an event is one the wizard's own step allows: a service is only
unchecked while the counter is at most 2, the date only changed while it is
at most 3. -/
def inStep (s : State) : Event → Bool
  | .handleServiceToggle _ false => s.currentStep ≤ 2
  | .handleDateChange _ => s.currentStep ≤ 3
  | _ => true

/-- Every event of the sequence is allowed by the step it is applied in. -/
def allInStep (s : State) : List Event → Bool
  | [] => true
  | e :: more => inStep s e && allInStep (step s e) more

/-- A service of 45 minutes, for the examples. -/
def cut : Service :=
  { serviceId := Prim.str "svc-cut", name := Prim.str "Cut", duration := some 45, rest := [] }

/-- A run of the wizard to step 3, after which the only selected service is
unchecked again. -/
def uncheckAtStepThree : List Event :=
  [ Event.stylistsSettled (.ok []),
    Event.handleStylistSelect (some "sty-1"),
    Event.handleNext,
    Event.servicesSettled (.ok [{ services := [cut], rest := [] }]),
    Event.handleServiceToggle (some "svc-cut") true,
    Event.handleNext,
    Event.handleServiceToggle (some "svc-cut") false ]

/-- A run of the wizard through all four steps. -/
def throughAllSteps : List Event :=
  [ Event.stylistsSettled (.ok []),
    Event.handleStylistSelect (some "sty-1"),
    Event.handleNext,
    Event.servicesSettled (.ok [{ services := [cut], rest := [] }]),
    Event.handleServiceToggle (some "svc-cut") true,
    Event.handleNext,
    Event.handleDateChange "2026-01-15",
    Event.slotsSettled (.ok [{ value := Prim.str "36000000", displayTime := Prim.str "10:00 AM" }]),
    Event.handleSlotSelect (some "36000000"),
    Event.handleNext ]

/-- A natural number written in decimal, most significant digit first,
from its list of base-10 digits. -/
def decimalNat (n : Nat) : String :=
  if n = 0 then "0" else String.mk ((Nat.digits 10 n).reverse.map Nat.digitChar)

/-- An integer written in decimal, with a minus sign when it is negative. -/
def decimal (z : Int) : String :=
  if z < 0 then "-" ++ decimalNat z.natAbs else decimalNat z.natAbs

/-- The magnitudes of the durations of a list of services, added up (a
missing duration counting as 0). -/
def durationMagnitudes (l : List Service) : Nat :=
  (l.map fun svc => (svc.duration.getD 0).natAbs).sum

/-- A service with the given duration in minutes, for the examples. -/
def serviceOf (minutes : Int) : Service :=
  { serviceId := Prim.str "svc", name := Prim.str "Service", duration := some minutes, rest := [] }

/-- A booking with a service of `2 ^ 53` minutes and one of 1 minute. -/
def pastSafeRange : State :=
  { init Prim.undefined with selectedServices := [serviceOf 9007199254740992, serviceOf 1] }

/-- A booking with a service of 30 minutes and one of 45 minutes. -/
def halfHourAndThreeQuarters : State :=
  { init Prim.undefined with selectedServices := [serviceOf 30, serviceOf 45] }

end BookingModal

/-- A platform for the examples: `atob` and `decodeURIComponent` hand their
argument back, `JSON.parse` knows three texts (the percent-encoded `a` and
`b`, which are two credentials' payloads, and a stored session),
`JSON.stringify` writes `key=value;` for every property. -/
def Platform.sample : Platform :=
  { jsonParse := fun s =>
      if s = "%61" then
        .ok (JsVal.obj [("email", Prim.str "alice@example.com"), ("given_name", Prim.str "Alice"),
          ("family_name", Prim.str "Ames"), ("picture", Prim.str "https://img.example/a.png")])
      else if s = "%62" then
        .ok (JsVal.obj [("email", Prim.str "mallory@example.com"),
          ("given_name", Prim.str "Mallory"), ("family_name", Prim.str "Moss"),
          ("picture", Prim.str "https://img.example/m.png")])
      else if s = "alice-session" then
        .ok (JsVal.obj [("email", Prim.str "alice@example.com"), ("firstName", Prim.str "Alice"),
          ("lastName", Prim.str "Ames"), ("contactId", Prim.str "003A")])
      else .error typeError
    jsonStringify := fun o => String.join (o.map fun kv => kv.1 ++ "=" ++ kv.2.toStr ++ ";")
    atob := fun s => .ok s
    decodeURIComponent := fun s => .ok s
    toLocaleDateString := fun v => v.toStr
    stringToNumber := fun _ => none
    parseInt10 := fun _ => none }

namespace Dashboard

/-- The names of the display fields `formatAppointment` computes. -/
def computedFields : List String :=
  ["formattedDate", "formattedTime", "formattedDateTime", "serviceNames", "formattedPrice",
   "formattedDuration", "statusClass", "canCancel"]

/-- An appointment record that already has a property named `canCancel`. -/
def aptWithCanCancel : Record :=
  [("status", JsVal.prim (Prim.str "Completed")), ("canCancel", JsVal.prim (Prim.str "yes"))]

/-- A confirmed appointment whose list of services holds a `null`. -/
def aptWithNullService : Record :=
  [("status", JsVal.prim (Prim.str "Confirmed")), ("services", JsVal.arr [Nullable.null])]

/-- A scheduled appointment, for the examples. -/
def aptScheduled : Record :=
  [("appointmentId", JsVal.prim (Prim.str "a01")), ("status", JsVal.prim (Prim.str "Scheduled")),
   ("startTime", JsVal.prim (Prim.num 52200000)), ("totalPrice", JsVal.prim (Prim.num 60)),
   ("services", JsVal.arr [Nullable.val [("serviceName", Prim.str "Cut")]])]

/-- Whether every element of an array is an object. -/
def allObjects (items : List (Nullable Fields)) : Bool :=
  items.all fun it =>
    match it with
    | .val _ => true
    | _ => false

/-- Whether `services.map(s => s.serviceName).join(', ')` returns: the value
is nullish (the `?.` skips the call) or an array with no `null` or
`undefined` element. -/
def servicesFormattable : JsVal → Bool
  | .prim .undefined => true
  | .prim .null => true
  | .arr items => allObjects items
  | _ => false

/-- Whether the expression for `formattedPrice` returns: the value is a
number or falsy. -/
def priceFormattable : JsVal → Bool
  | .prim (.num _) => true
  | v => !v.truthy

/-- Whether `formatAppointment` returns for this record: `services` is
nullish or an array with no `null` or `undefined` element, and `totalPrice`
is falsy or a number. -/
def formattable (apt : Record) : Bool :=
  servicesFormattable (apt.get "services") && priceFormattable (apt.get "totalPrice")

end Dashboard

namespace GoogleAuth

/-- The session blob as the specification lists its fields: email, name,
contact and stylist identifiers, role flags, title and picture URL. -/
def listedSessionData (email picture : Prim) (session : JsVal) : Fields :=
  [("email", email),
   ("firstName", session.prop "firstName"),
   ("lastName", session.prop "lastName"),
   ("contactId", session.prop "contactId"),
   ("stylistId", session.prop "stylistId"),
   ("isStylist", session.prop "isStylist"),
   ("isCustomer", session.prop "isCustomer"),
   ("title", session.prop "title"),
   ("picture", picture)]

/-- The string `handleCredentialResponse` stores: `JSON.stringify` of the
object literal `sessionData`, with `email` and `picture` from the decoded
credential. -/
def storedBlob (P : Platform) (credential : Prim) (session : JsVal) : String :=
  P.jsonStringify (sessionData ((decodeJwt P credential).prop "email")
    (((decodeJwt P credential).prop "picture").or (Prim.str "")) session)

/-- The writes to browser storage in a trace. -/
def storageWrites (trace : List Effect) : List Effect :=
  trace.filter fun e => match e with
    | .setItem _ _ => true
    | .removeItem _ => true
    | _ => false

/-- A session record as the server answers with it, for the examples. -/
def sampleSession : JsVal :=
  JsVal.obj [("firstName", Prim.str "Alice"), ("lastName", Prim.str "Ames"),
    ("contactId", Prim.str "003A"), ("isStylist", Prim.bool false),
    ("isCustomer", Prim.bool true), ("userType", Prim.str "Customer")]

/-- The fields of an instance that restoring from storage leaves alone. -/
def untouchedByRestore (before after : State) : Prop :=
  after.error = before.error ∧ after.userPicture = before.userPicture ∧
  after.googleClientId = before.googleClientId ∧
  after._googleInitialized = before._googleInitialized

/-- A page that has just been loaded, with a session in `localStorage`. -/
def returningModule : Module :=
  Module.fresh { localStorage := [(SESSION_KEY, "alice-session")], sessionStorage := [] }

/-- A first instance checks the session and the server confirms it. -/
def firstCheck : List Step :=
  [Step.settle (init (Prim.str "client-id")) (.ok sampleSession)]

/-- A page that has just been loaded, with empty storage and one instance. -/
def sampleWorld : World :=
  { page := Module.fresh { localStorage := [], sessionStorage := [] }
    self := init (Prim.str "client-id") }

end GoogleAuth

namespace Dashboard

/-- Whether `loadAppointments` makes its remote calls: there is a session,
and it has a stylist flag with a stylist id, or a contact id. -/
def appointmentsWanted (s : State) : Bool :=
  s.userSession.truthy &&
    (((s.userSession.prop "isStylist").truthy && (s.userSession.prop "stylistId").truthy)
      || (s.userSession.prop "contactId").truthy)

end Dashboard

/-- A booking in which a stylist, a date and a service are chosen, so that
`loadTimeSlots` makes its call. -/
def BookingModal.readyForSlots : BookingModal.State :=
  { BookingModal.init (Prim.str "003A") with
    selectedStylistId := Prim.str "sty-1"
    selectedDate := Prim.str "2026-01-15"
    selectedServices := [BookingModal.cut] }

/-- A dashboard whose session is that of a customer. -/
def Dashboard.signedInCustomer : Dashboard.State :=
  { Dashboard.init with
    userSession := JsVal.obj [("contactId", Prim.str "003A"), ("isCustomer", Prim.bool true)] }

/-- A browser whose stored session is not JSON. -/
def garbledStorage : Browser :=
  { localStorage := [(Dashboard.SESSION_KEY, "not json")], sessionStorage := [] }

/-- A rejection with a message from the server. -/
def serverDown : JsErr := { bodyMessage := some "Server unavailable" }

/-- A booking made without a signed-in customer: every step is filled in
and `contactId` is the empty string. -/
def BookingModal.filledButSignedOut : BookingModal.State :=
  { BookingModal.readyForSlots with
    contactId := Prim.str ""
    isOpen := true
    currentStep := 4
    selectedSlot := Prim.str "36000000"
    notes := "First visit" }

/-- A dashboard whose session is that of a stylist who is also a contact. -/
def Dashboard.signedInStylist : Dashboard.State :=
  { Dashboard.init with
    userSession := JsVal.obj [("contactId", Prim.str "003S"), ("stylistId", Prim.str "a0S1"),
      ("isStylist", Prim.bool true)] }

/-- A dashboard whose session has neither a stylist id nor a contact id. -/
def Dashboard.signedInNobody : Dashboard.State :=
  { Dashboard.init with
    userSession := JsVal.obj [("email", Prim.str "new@example.com")]
    upcomingAppointments := [Dashboard.aptScheduled] }

/-- The display time as the specification words it, for `t` milliseconds
from midnight: the hour `h = t / 3600000` on the 12-hour clock in decimal
(12 when `h mod 12` is 0), a colon, the minutes `(t mod 3600000) / 60000` as
two digits, a space, and `AM` when `h < 12`, `PM` otherwise. -/
def Dashboard.clockTime (t : Nat) : String :=
  BookingModal.decimalNat (if (t / 3600000) % 12 = 0 then 12 else (t / 3600000) % 12)
    ++ ":"
    ++ String.mk [Nat.digitChar ((t % 3600000) / 60000 / 10),
        Nat.digitChar ((t % 3600000) / 60000 % 10)]
    ++ " "
    ++ (if t / 3600000 < 12 then "AM" else "PM")

/-- An appointment that starts at midnight. -/
def Dashboard.aptAtMidnight : Record :=
  [("appointmentId", JsVal.prim (Prim.str "a02")), ("status", JsVal.prim (Prim.str "Scheduled")),
   ("startTime", JsVal.prim (Prim.num 0))]

/-- A page that has just been loaded, with a session in `localStorage`, and
one instance. -/
def GoogleAuth.returningWorld : GoogleAuth.World :=
  { page := GoogleAuth.returningModule, self := GoogleAuth.init (Prim.str "client-id") }

/-- A page that has just been loaded, whose stored session is not JSON, and
one instance. -/
def GoogleAuth.garbledWorld : GoogleAuth.World :=
  { page := GoogleAuth.Module.fresh garbledStorage
    self := GoogleAuth.init (Prim.str "client-id") }

/-! ## Properties of the booking wizard -/

namespace BookingModal

theorem loadServicesBegin_currentStep (s : State) :
    (loadServicesBegin s).currentStep = s.currentStep := rfl

theorem loadTimeSlotsBegin_currentStep (s : State) :
    (loadTimeSlotsBegin s).currentStep = s.currentStep := by
  unfold loadTimeSlotsBegin
  split <;> rfl

theorem handleNext_eq_or_succ (s : State) :
    (handleNext s).currentStep = s.currentStep ∨
      ((handleNext s).currentStep = s.currentStep + 1 ∧ s.currentStep < 4 ∧ canGoNext s = true) := by
  unfold handleNext
  by_cases h : (decide (s.currentStep < 4) && canGoNext s) = true
  · rw [if_pos h]
    simp only [Bool.and_eq_true, decide_eq_true_eq] at h
    right
    refine ⟨?_, h.1, h.2⟩
    dsimp only
    split <;> rfl
  · rw [if_neg h]
    left; rfl

theorem canGoNext_true_iff (s : State) :
    canGoNext s = true ↔
      (s.currentStep = 1 ∧ s.selectedStylistId ≠ Prim.null) ∨
      (s.currentStep = 2 ∧ s.selectedServices ≠ []) ∨
      (s.currentStep = 3 ∧ s.selectedSlot ≠ Prim.null) := by
  unfold canGoNext
  by_cases h1 : s.currentStep = 1
  · simp [h1]
  · by_cases h2 : s.currentStep = 2
    · simp [h2, List.length_pos]
    · by_cases h3 : s.currentStep = 3
      · simp [h3]
      · simp [h1, h2, h3]

theorem mayAdvance_eq (s : State) : mayAdvance s = (decide (s.currentStep < 4) && canGoNext s) := by
  unfold mayAdvance canGoNext
  by_cases h1 : s.currentStep = 1
  · simp [h1]
  · by_cases h2 : s.currentStep = 2
    · cases hl : s.selectedServices <;> simp [h2, hl]
    · by_cases h3 : s.currentStep = 3
      · simp [h3]
      · simp [h1, h2, h3]

/-- C1: `handleNext` adds exactly 1 to `currentStep` when the current step's
selection is there (step 1 with a stylist id that is not null, step 2 with a
non-empty list of services, step 3 with a slot that is not null) and leaves
`currentStep` as it is in every other state, step 4 included. -/
theorem handleNext_currentStep (s : State) :
    (handleNext s).currentStep = (if mayAdvance s then s.currentStep + 1 else s.currentStep) ∧
      (handleNext { s with currentStep := 4 }).currentStep = 4 := by
  constructor
  · rw [mayAdvance_eq]
    unfold handleNext
    by_cases h : (decide (s.currentStep < 4) && canGoNext s) = true
    · rw [if_pos h, if_pos h]
      dsimp only
      split <;> rfl
    · rw [if_neg h, if_neg h]
  · simp [handleNext]

theorem settle_fields_stylists (r : Except JsErr (List Stylist)) (s : State) :
    (loadStylistsSettle r s).state.currentStep = s.currentStep ∧
    (loadStylistsSettle r s).state.selectedStylistId = s.selectedStylistId ∧
    (loadStylistsSettle r s).state.selectedServices = s.selectedServices ∧
    (loadStylistsSettle r s).state.selectedSlot = s.selectedSlot := by
  cases r <;> exact ⟨rfl, rfl, rfl, rfl⟩

theorem settle_fields_services (r : Except JsErr (List Category)) (s : State) :
    (loadServicesSettle r s).state.currentStep = s.currentStep ∧
    (loadServicesSettle r s).state.selectedStylistId = s.selectedStylistId ∧
    (loadServicesSettle r s).state.selectedServices = s.selectedServices ∧
    (loadServicesSettle r s).state.selectedSlot = s.selectedSlot := by
  cases r <;> exact ⟨rfl, rfl, rfl, rfl⟩

theorem settle_fields_slots (r : Except JsErr (List Slot)) (s : State) :
    (loadTimeSlotsSettle r s).state.currentStep = s.currentStep ∧
    (loadTimeSlotsSettle r s).state.selectedStylistId = s.selectedStylistId ∧
    (loadTimeSlotsSettle r s).state.selectedServices = s.selectedServices ∧
    (loadTimeSlotsSettle r s).state.selectedSlot = s.selectedSlot := by
  cases r <;> exact ⟨rfl, rfl, rfl, rfl⟩

theorem loadTimeSlotsBegin_fields (s : State) :
    (loadTimeSlotsBegin s).currentStep = s.currentStep ∧
    (loadTimeSlotsBegin s).selectedStylistId = s.selectedStylistId ∧
    (loadTimeSlotsBegin s).selectedServices = s.selectedServices ∧
    (loadTimeSlotsBegin s).selectedSlot = s.selectedSlot := by
  unfold loadTimeSlotsBegin
  split <;> exact ⟨rfl, rfl, rfl, rfl⟩

theorem handleServiceToggle_fields (id : Option String) (isChecked : Bool) (s : State) :
    (handleServiceToggle id isChecked s).currentStep = s.currentStep ∧
    (handleServiceToggle id isChecked s).selectedStylistId = s.selectedStylistId ∧
    (handleServiceToggle id isChecked s).selectedSlot = s.selectedSlot := by
  unfold handleServiceToggle
  dsimp only
  split
  · split <;> exact ⟨rfl, rfl, rfl⟩
  · exact ⟨rfl, rfl, rfl⟩

theorem handleServiceToggle_checked_ne_nil (id : Option String) (s : State)
    (h : s.selectedServices ≠ []) : (handleServiceToggle id true s).selectedServices ≠ [] := by
  unfold handleServiceToggle
  dsimp only
  rw [if_pos rfl]
  split
  · simp
  · exact h

theorem handleNext_fields (s : State) :
    (handleNext s).selectedStylistId = s.selectedStylistId ∧
    (handleNext s).selectedServices = s.selectedServices ∧
    (handleNext s).selectedSlot = s.selectedSlot := by
  unfold handleNext
  split
  · dsimp only
    split <;> exact ⟨rfl, rfl, rfl⟩
  · exact ⟨rfl, rfl, rfl⟩

theorem handleBack_currentStep (s : State) :
    (handleBack s).currentStep = s.currentStep ∨
      ((handleBack s).currentStep = s.currentStep - 1 ∧ 1 < s.currentStep) := by
  unfold handleBack
  split
  · right; exact ⟨rfl, by assumption⟩
  · left; rfl

theorem handleBack_fields (s : State) :
    (handleBack s).selectedStylistId = s.selectedStylistId ∧
    (handleBack s).selectedServices = s.selectedServices ∧
    (handleBack s).selectedSlot = s.selectedSlot := by
  unfold handleBack
  split <;> exact ⟨rfl, rfl, rfl⟩

theorem dataAttr_ne_null (v : Option String) : dataAttr v ≠ Prim.null := by
  cases v <;> simp [dataAttr]

theorem step_currentStep (s : State) (e : Event) :
    (step s e).currentStep = s.currentStep ∨ (step s e).currentStep = 1 ∨
      ((step s e).currentStep = s.currentStep + 1 ∧ s.currentStep < 4 ∧ canGoNext s = true) ∨
      ((step s e).currentStep = s.currentStep - 1 ∧ 1 < s.currentStep) := by
  cases e with
  | «open» => right; left; rfl
  | close => right; left; rfl
  | handleNext =>
    rcases handleNext_eq_or_succ s with h | h
    · left; exact h
    · right; right; left; exact h
  | handleBack =>
    rcases handleBack_currentStep s with h | h
    · left; exact h
    · right; right; right; exact h
  | handleStylistSelect id => left; rfl
  | handleServiceToggle id c => left; exact (handleServiceToggle_fields id c s).1
  | handleDateChange v => left; exact (loadTimeSlotsBegin_fields _).1
  | handleSlotSelect v => left; rfl
  | handleNotesChange v => left; rfl
  | stylistsSettled r => left; exact (settle_fields_stylists r s).1
  | servicesSettled r => left; exact (settle_fields_services r s).1
  | slotsSettled r => left; exact (settle_fields_slots r s).1

theorem step_onAStep (s : State) (e : Event) (h : onAStep s) : onAStep (step s e) := by
  unfold onAStep at *
  have := step_currentStep s e
  omega

theorem run_onAStep (events : List Event) (s : State) (h : onAStep s) :
    onAStep (run s events) := by
  induction events generalizing s with
  | nil => exact h
  | cons e more ih => exact ih (step s e) (step_onAStep s e h)

/-- C2: in every state reachable from the initial state by any sequence of
`open`, `close`, the event handlers and the settling of pending loads,
`currentStep` is 1, 2, 3 or 4, and one `handleNext` or one `handleBack`
changes `currentStep` by at most 1. -/
theorem reachable_currentStep (contactId : Prim) (events : List Event) :
    onAStep (run (init contactId) events) ∧
    ((handleNext (run (init contactId) events)).currentStep
        - (run (init contactId) events).currentStep).natAbs ≤ 1 ∧
    ((handleBack (run (init contactId) events)).currentStep
        - (run (init contactId) events).currentStep).natAbs ≤ 1 := by
  refine ⟨run_onAStep events _ (Or.inl rfl), ?_, ?_⟩
  · have := handleNext_eq_or_succ (run (init contactId) events)
    omega
  · have := handleBack_currentStep (run (init contactId) events)
    omega

theorem handleDateChange_fields (v : String) (s : State) :
    (handleDateChange v s).currentStep = s.currentStep ∧
    (handleDateChange v s).selectedStylistId = s.selectedStylistId ∧
    (handleDateChange v s).selectedServices = s.selectedServices := by
  unfold handleDateChange
  have h := loadTimeSlotsBegin_fields { s with selectedDate := Prim.str v, selectedSlot := Prim.null }
  exact ⟨h.1, h.2.1, h.2.2.1⟩

theorem handleNext_filled (s : State) (h : EarlierStepsFilled s) :
    EarlierStepsFilled (handleNext s) := by
  obtain ⟨h1, h2, h3⟩ := h
  obtain ⟨f1, f2, f3⟩ := handleNext_fields s
  unfold EarlierStepsFilled
  rw [f1, f2, f3]
  rcases handleNext_eq_or_succ s with hc | ⟨hc, hlt, hgo⟩
  · rw [hc]; exact ⟨h1, h2, h3⟩
  · rw [hc]
    rw [canGoNext_true_iff] at hgo
    refine ⟨fun _ => ?_, fun _ => ?_, fun _ => ?_⟩
    · rcases hgo with ⟨_, g⟩ | ⟨g, _⟩ | ⟨g, _⟩
      · exact g
      · exact h1 (by omega)
      · exact h1 (by omega)
    · rcases hgo with ⟨g, _⟩ | ⟨_, g⟩ | ⟨g, _⟩
      · omega
      · exact g
      · exact h2 (by omega)
    · rcases hgo with ⟨g, _⟩ | ⟨g, _⟩ | ⟨_, g⟩
      · omega
      · omega
      · exact g

theorem handleBack_filled (s : State) (hs : onAStep s) (h : EarlierStepsFilled s) :
    EarlierStepsFilled (handleBack s) := by
  obtain ⟨h1, h2, h3⟩ := h
  obtain ⟨f1, f2, f3⟩ := handleBack_fields s
  unfold onAStep at hs
  unfold EarlierStepsFilled
  rw [f1, f2, f3]
  rcases handleBack_currentStep s with hc | ⟨hc, _⟩
  · rw [hc]; exact ⟨h1, h2, h3⟩
  · rw [hc]
    exact ⟨fun _ => h1 (by omega), fun _ => h2 (by omega), fun _ => by omega⟩

theorem filled_of_stepOne (s : State) (h : s.currentStep = 1) : EarlierStepsFilled s :=
  ⟨fun g => by omega, fun g => by omega, fun g => by omega⟩

theorem step_filled (s : State) (e : Event) (hs : onAStep s) (h : EarlierStepsFilled s)
    (hin : inStep s e = true) : EarlierStepsFilled (step s e) := by
  cases e with
  | «open» => exact filled_of_stepOne _ rfl
  | close => exact filled_of_stepOne _ rfl
  | handleNext => exact handleNext_filled s h
  | handleBack => exact handleBack_filled s hs h
  | handleStylistSelect id => exact ⟨fun _ => dataAttr_ne_null id, h.2.1, h.2.2⟩
  | handleServiceToggle id c =>
    obtain ⟨f1, f2, f3⟩ := handleServiceToggle_fields id c s
    show EarlierStepsFilled (handleServiceToggle id c s)
    unfold EarlierStepsFilled
    rw [f1, f2, f3]
    refine ⟨h.1, fun g => ?_, h.2.2⟩
    cases c with
    | true => exact handleServiceToggle_checked_ne_nil id s (h.2.1 g)
    | false =>
      have : s.currentStep ≤ 2 := by simpa [inStep] using hin
      omega
  | handleDateChange v =>
    obtain ⟨f1, f2, f3⟩ := handleDateChange_fields v s
    show EarlierStepsFilled (handleDateChange v s)
    unfold EarlierStepsFilled
    rw [f1, f2, f3]
    refine ⟨h.1, h.2.1, fun g => ?_⟩
    have : s.currentStep ≤ 3 := by simpa [inStep] using hin
    omega
  | handleSlotSelect v => exact ⟨h.1, h.2.1, fun _ => dataAttr_ne_null v⟩
  | handleNotesChange v => exact h
  | stylistsSettled r =>
    obtain ⟨f1, f2, f3, f4⟩ := settle_fields_stylists r s
    show EarlierStepsFilled (loadStylistsSettle r s).state
    unfold EarlierStepsFilled
    rw [f1, f2, f3, f4]; exact h
  | servicesSettled r =>
    obtain ⟨f1, f2, f3, f4⟩ := settle_fields_services r s
    show EarlierStepsFilled (loadServicesSettle r s).state
    unfold EarlierStepsFilled
    rw [f1, f2, f3, f4]; exact h
  | slotsSettled r =>
    obtain ⟨f1, f2, f3, f4⟩ := settle_fields_slots r s
    show EarlierStepsFilled (loadTimeSlotsSettle r s).state
    unfold EarlierStepsFilled
    rw [f1, f2, f3, f4]; exact h

theorem run_filled (events : List Event) (s : State) (hs : onAStep s)
    (h : EarlierStepsFilled s) (hin : allInStep s events = true) :
    EarlierStepsFilled (run s events) := by
  induction events generalizing s with
  | nil => exact h
  | cons e more ih =>
    simp only [allInStep, Bool.and_eq_true] at hin
    exact ih (step s e) (step_onAStep s e hs) (step_filled s e hs h hin.1) hin.2

theorem step_stylist (s : State) (e : Event)
    (h : 2 ≤ s.currentStep → s.selectedStylistId ≠ Prim.null) :
    2 ≤ (step s e).currentStep → (step s e).selectedStylistId ≠ Prim.null := by
  cases e with
  | «open» => exact (filled_of_stepOne _ rfl).1
  | close => exact (filled_of_stepOne _ rfl).1
  | handleNext =>
    show 2 ≤ (handleNext s).currentStep → (handleNext s).selectedStylistId ≠ Prim.null
    rw [(handleNext_fields s).1]
    rcases handleNext_eq_or_succ s with hc | ⟨hc, hlt, hgo⟩
    · rw [hc]; exact h
    · rw [hc]
      rw [canGoNext_true_iff] at hgo
      intro _
      rcases hgo with ⟨_, g⟩ | ⟨g, _⟩ | ⟨g, _⟩
      · exact g
      · exact h (by omega)
      · exact h (by omega)
  | handleBack =>
    show 2 ≤ (handleBack s).currentStep → (handleBack s).selectedStylistId ≠ Prim.null
    rw [(handleBack_fields s).1]
    rcases handleBack_currentStep s with hc | ⟨hc, _⟩
    · rw [hc]; exact h
    · rw [hc]; exact fun _ => h (by omega)
  | handleStylistSelect id => exact fun _ => dataAttr_ne_null id
  | handleServiceToggle id c =>
    show 2 ≤ (handleServiceToggle id c s).currentStep →
      (handleServiceToggle id c s).selectedStylistId ≠ Prim.null
    rw [(handleServiceToggle_fields id c s).1, (handleServiceToggle_fields id c s).2.1]
    exact h
  | handleDateChange v =>
    show 2 ≤ (handleDateChange v s).currentStep →
      (handleDateChange v s).selectedStylistId ≠ Prim.null
    rw [(handleDateChange_fields v s).1, (handleDateChange_fields v s).2.1]
    exact h
  | handleSlotSelect v => exact h
  | handleNotesChange v => exact h
  | stylistsSettled r =>
    show 2 ≤ (loadStylistsSettle r s).state.currentStep →
      (loadStylistsSettle r s).state.selectedStylistId ≠ Prim.null
    rw [(settle_fields_stylists r s).1, (settle_fields_stylists r s).2.1]; exact h
  | servicesSettled r =>
    show 2 ≤ (loadServicesSettle r s).state.currentStep →
      (loadServicesSettle r s).state.selectedStylistId ≠ Prim.null
    rw [(settle_fields_services r s).1, (settle_fields_services r s).2.1]; exact h
  | slotsSettled r =>
    show 2 ≤ (loadTimeSlotsSettle r s).state.currentStep →
      (loadTimeSlotsSettle r s).state.selectedStylistId ≠ Prim.null
    rw [(settle_fields_slots r s).1, (settle_fields_slots r s).2.1]; exact h

theorem run_stylist (events : List Event) (s : State)
    (h : 2 ≤ s.currentStep → s.selectedStylistId ≠ Prim.null) :
    2 ≤ (run s events).currentStep → (run s events).selectedStylistId ≠ Prim.null := by
  induction events generalizing s with
  | nil => exact h
  | cons e more ih => exact ih (step s e) (step_stylist s e h)

theorem open_filled (s : State) : onAStep («open» s) ∧ EarlierStepsFilled («open» s) :=
  ⟨Or.inl rfl, filled_of_stepOne _ rfl⟩

/-- C3, as stated, fails: from `open()`, the wizard is taken to step 3 with
one service selected and the service is then unchecked; the counter stays at
3 while the list of selected services is empty. -/
theorem uncheck_breaks_earlier_steps :
    (run («open» (init Prim.undefined)) uncheckAtStepThree).currentStep = 3 ∧
    (run («open» (init Prim.undefined)) uncheckAtStepThree).selectedServices = [] ∧
    ¬ EarlierStepsFilled (run («open» (init Prim.undefined)) uncheckAtStepThree) := by
  have h1 : (run («open» (init Prim.undefined)) uncheckAtStepThree).currentStep = 3 := by decide
  have h2 : (run («open» (init Prim.undefined)) uncheckAtStepThree).selectedServices = [] := by
    decide
  refine ⟨h1, h2, fun h => ?_⟩
  exact h.2.1 (by rw [h1]) h2

/-- C3, amended: in every state reachable from `open()` (called in any
state) by any sequence of events, `currentStep >= 2` implies that
`selectedStylistId` is not null; and when no service is unchecked while the
counter is above 2 and the date is not changed while it is 4, the selections
of all earlier steps are non-empty in the state reached. -/
theorem earlier_steps_filled (s0 : State) (events : List Event) :
    (2 ≤ (run («open» s0) events).currentStep →
      (run («open» s0) events).selectedStylistId ≠ Prim.null) ∧
    (allInStep («open» s0) events = true → EarlierStepsFilled (run («open» s0) events)) :=
  ⟨run_stylist events _ (open_filled s0).2.1,
    fun hin => run_filled events _ (open_filled s0).1 (open_filled s0).2 hin⟩

/-- An instance of C3 as amended: a run through all four steps, each
selection made in its own step, ends at step 4 with every selection there. -/
theorem earlier_steps_filled_witness :
    (run («open» (init Prim.undefined)) throughAllSteps).currentStep = 4 ∧
    allInStep («open» (init Prim.undefined)) throughAllSteps = true ∧
    EarlierStepsFilled (run («open» (init Prim.undefined)) throughAllSteps) :=
  ⟨by decide, by decide,
    (earlier_steps_filled (init Prim.undefined) throughAllSteps).2 (by decide)⟩

theorem toDigitsCore_eq_digits (fuel : Nat) :
    ∀ (n : Nat) (ds : List Char), n < fuel → 0 < n →
      Nat.toDigitsCore 10 fuel n ds = (Nat.digits 10 n).reverse.map Nat.digitChar ++ ds := by
  induction fuel with
  | zero => intro n ds h; omega
  | succ fuel ih =>
    intro n ds hlt hpos
    rw [Nat.digits_def' (by decide) hpos]
    simp only [Nat.toDigitsCore, List.reverse_cons, List.map_append, List.map_cons, List.map_nil,
      List.append_assoc, List.singleton_append]
    by_cases h0 : n / 10 = 0
    · simp [h0]
    · rw [if_neg h0]
      exact ih (n / 10) _ (by omega) (by omega)

theorem nat_repr_eq_decimalNat (n : Nat) : toString n = decimalNat n := by
  show Nat.repr n = decimalNat n
  unfold decimalNat Nat.repr Nat.toDigits
  by_cases h : n = 0
  · subst h; rfl
  · rw [if_neg h, toDigitsCore_eq_digits (n + 1) n [] (by omega) (by omega)]
    simp [List.asString]

theorem int_toString_eq_decimal (z : Int) : toString z = decimal z := by
  unfold decimal
  cases z with
  | ofNat m =>
    have : ¬ (Int.ofNat m < 0) := by simp
    rw [if_neg this]
    exact nat_repr_eq_decimalNat m
  | negSucc m =>
    have : Int.negSucc m < 0 := Int.negSucc_lt_zero m
    rw [if_pos this]
    show "-" ++ toString (m + 1) = _
    rw [nat_repr_eq_decimalNat]
    rfl

theorem roundNat_of_le (n : Nat) (h : n ≤ 2 ^ 53) : roundNat n = n := by
  rcases Nat.lt_or_eq_of_le h with h | h
  · unfold roundNat
    have hdrop : dropBits n n 0 = 0 := by
      cases n with
      | zero => rfl
      | succ k =>
        unfold dropBits
        simp only [Nat.add_zero]
        rw [if_pos h]
    simp [hdrop]
  · subst h
    decide

theorem roundToDouble_of_le (z : Int) (h : z.natAbs ≤ 2 ^ 53) : roundToDouble z = z := by
  unfold roundToDouble
  rw [roundNat_of_le _ h]
  split <;> omega

theorem durationOrZero_eq (x : Service) : durationOrZero x = x.duration.getD 0 := by
  unfold durationOrZero
  cases hd : x.duration with
  | none => rfl
  | some d =>
    by_cases h : d = 0
    · simp [h]
    · simp [h]

theorem foldl_duration (l : List Service) (a : Int)
    (h : a.natAbs + durationMagnitudes l ≤ 2 ^ 53) :
    l.foldl (fun sum svc => jsAdd sum (durationOrZero svc)) a
      = a + (l.map fun svc => svc.duration.getD 0).sum := by
  induction l generalizing a with
  | nil => simp
  | cons x more ih =>
    simp only [durationMagnitudes, List.map_cons, List.sum_cons] at h
    have hadd : jsAdd a (durationOrZero x) = a + x.duration.getD 0 := by
      unfold jsAdd
      rw [durationOrZero_eq]
      apply roundToDouble_of_le
      omega
    simp only [List.foldl_cons, List.map_cons, List.sum_cons]
    rw [hadd, ih]
    · omega
    · simp only [durationMagnitudes]
      omega

/-- C4, as stated, fails: with services of `2 ^ 53` minutes and of 1 minute
selected, `totalDuration` is `2 ^ 53`, one less than the sum of the two
durations, because the sum of two doubles is rounded to a double. -/
theorem totalDuration_rounds_past_safe_range :
    (pastSafeRange.selectedServices.map fun svc => svc.duration.getD 0)
      = [9007199254740992, 1] ∧
    (pastSafeRange.selectedServices.map fun svc => svc.duration.getD 0).sum
      = 9007199254740993 ∧
    totalDuration pastSafeRange = 9007199254740992 ∧
    totalDuration pastSafeRange
      ≠ (pastSafeRange.selectedServices.map fun svc => svc.duration.getD 0).sum ∧
    formattedTotalDuration pastSafeRange = "9007199254740992 min" := by
  refine ⟨?_, ?_, ?_, ?_, ?_⟩ <;> decide

/-- C4, amended: for every list of selected services whose durations are
whole numbers (a missing or zero duration counting as 0) with magnitudes
that add up to at most `2 ^ 53`, `totalDuration` is the sum of the
durations and `formattedTotalDuration` is that sum written in decimal,
followed by `' min'`; services of 30 and 45 minutes display `'75 min'`. -/
theorem totalDuration_sum (s : State) (h : durationMagnitudes s.selectedServices ≤ 2 ^ 53) :
    totalDuration s = (s.selectedServices.map fun svc => svc.duration.getD 0).sum ∧
    formattedTotalDuration s
      = decimal (s.selectedServices.map fun svc => svc.duration.getD 0).sum ++ " min" ∧
    formattedTotalDuration { s with selectedServices := [serviceOf 30, serviceOf 45] }
      = "75 min" := by
  have hsum :
      totalDuration s = (s.selectedServices.map fun svc => svc.duration.getD 0).sum := by
    unfold totalDuration
    rw [foldl_duration _ _ (by simpa using h)]
    omega
  refine ⟨hsum, ?_, ?_⟩
  · unfold formattedTotalDuration
    rw [hsum]
    show toString _ ++ " min" = _
    rw [int_toString_eq_decimal]
  · have h75 : totalDuration { s with selectedServices := [serviceOf 30, serviceOf 45] } = 75 := by
      show jsAdd (jsAdd 0 (durationOrZero (serviceOf 30))) (durationOrZero (serviceOf 45)) = 75
      decide
    unfold formattedTotalDuration
    rw [h75]
    decide

/-- An instance of C4 as amended: services of 30 and 45 minutes are within
the range, total 75 and display `'75 min'`. -/
theorem totalDuration_sum_witness :
    durationMagnitudes halfHourAndThreeQuarters.selectedServices ≤ 2 ^ 53 ∧
    totalDuration halfHourAndThreeQuarters = 75 ∧
    formattedTotalDuration halfHourAndThreeQuarters = "75 min" := by
  have h := totalDuration_sum halfHourAndThreeQuarters (by decide)
  refine ⟨by decide, ?_, ?_⟩
  · rw [h.1]
    decide
  · decide

/-- C5: `close()` discards the view state (closed, step 1, no stylist, no
services, no date, no slot, no available slots, empty notes and error);
`open()` leaves the same selection state with `isOpen` true; `resetBooking`
leaves `contactId`, `_stylists` and `serviceCategories` as they were. -/
theorem close_discards_view_state (s : State) :
    ((close s).isOpen = false ∧ (close s).currentStep = 1 ∧
      (close s).selectedStylistId = Prim.null ∧ (close s).selectedStylist = Nullable.null ∧
      (close s).selectedDate = Prim.null ∧ (close s).selectedSlot = Prim.null ∧
      (close s).selectedServices = [] ∧ (close s).availableSlots = [] ∧
      (close s).notes = "" ∧ (close s).error = "") ∧
    ((«open» s).isOpen = true ∧ («open» s).currentStep = 1 ∧
      («open» s).selectedStylistId = Prim.null ∧ («open» s).selectedStylist = Nullable.null ∧
      («open» s).selectedDate = Prim.null ∧ («open» s).selectedSlot = Prim.null ∧
      («open» s).selectedServices = [] ∧ («open» s).availableSlots = [] ∧
      («open» s).notes = "" ∧ («open» s).error = "") ∧
    (∀ r, (loadStylistsSettle r («open» s)).state.isOpen = true ∧
      (loadStylistsSettle r («open» s)).state.currentStep = 1 ∧
      (loadStylistsSettle r («open» s)).state.selectedStylistId = Prim.null ∧
      (loadStylistsSettle r («open» s)).state.selectedStylist = Nullable.null ∧
      (loadStylistsSettle r («open» s)).state.selectedDate = Prim.null ∧
      (loadStylistsSettle r («open» s)).state.selectedSlot = Prim.null ∧
      (loadStylistsSettle r («open» s)).state.selectedServices = [] ∧
      (loadStylistsSettle r («open» s)).state.availableSlots = [] ∧
      (loadStylistsSettle r («open» s)).state.notes = "") ∧
    ((resetBooking s).contactId = s.contactId ∧ (resetBooking s)._stylists = s._stylists ∧
      (resetBooking s).serviceCategories = s.serviceCategories ∧
      (resetBooking s).isOpen = s.isOpen) := by
  refine ⟨⟨rfl, rfl, rfl, rfl, rfl, rfl, rfl, rfl, rfl, rfl⟩,
    ⟨rfl, rfl, rfl, rfl, rfl, rfl, rfl, rfl, rfl, rfl⟩, ?_, ⟨rfl, rfl, rfl, rfl⟩⟩
  intro r
  cases r <;> exact ⟨rfl, rfl, rfl, rfl, rfl, rfl, rfl, rfl, rfl⟩

end BookingModal

/-! ## Properties of the dashboard -/

theorem Record.get_cons (a : String) (b : JsVal) (more : Record) (k : String) :
    Record.get ((a, b) :: more) k = if a = k then b else Record.get more k := rfl

theorem Record.get_map_ne (r : Record) (k k1 : String) (v : JsVal) (h : k1 ≠ k) :
    Record.get (r.map fun kv => if kv.1 = k then (k, v) else kv) k1 = Record.get r k1 := by
  induction r with
  | nil => rfl
  | cons x more ih =>
    obtain ⟨a, b⟩ := x
    by_cases hx : a = k
    · have hk : ¬ k = k1 := fun e => h e.symm
      have hx1 : ¬ a = k1 := fun e => h (by rw [← e, hx])
      simp only [List.map_cons, hx, if_true, Record.get_cons, hk, if_false]
      rw [ih]
    · simp only [List.map_cons, hx, if_false, Record.get_cons]
      rw [ih]

theorem Record.get_append_ne (r : Record) (k k1 : String) (v : JsVal) (h : k1 ≠ k) :
    Record.get (r ++ [(k, v)]) k1 = Record.get r k1 := by
  induction r with
  | nil =>
    have hk : ¬ k = k1 := fun e => h e.symm
    simp only [List.nil_append, Record.get_cons, hk, if_false]
  | cons x more ih =>
    obtain ⟨a, b⟩ := x
    simp only [List.cons_append, Record.get_cons]
    rw [ih]

theorem Record.get_map_self (r : Record) (k : String) (v : JsVal) (h : r.has k = true) :
    Record.get (r.map fun kv => if kv.1 = k then (k, v) else kv) k = v := by
  induction r with
  | nil => simp [Record.has] at h
  | cons x more ih =>
    obtain ⟨a, b⟩ := x
    by_cases hx : a = k
    · simp only [List.map_cons, hx, if_true, Record.get_cons]
    · have hm : Record.has more k = true := by
        simpa [Record.has, hx] using h
      simp only [List.map_cons, hx, if_false, Record.get_cons]
      exact ih hm

theorem Record.get_append_self (r : Record) (k : String) (v : JsVal) (h : ¬ r.has k = true) :
    Record.get (r ++ [(k, v)]) k = v := by
  induction r with
  | nil => simp only [List.nil_append, Record.get_cons, if_true]
  | cons x more ih =>
    obtain ⟨a, b⟩ := x
    have hx : ¬ a = k := by
      intro e
      apply h
      simp [Record.has, e]
    have hm : ¬ Record.has more k = true := by
      intro e
      apply h
      simp only [Record.has, List.any_cons, Bool.or_eq_true]
      right
      exact e
    simp only [List.cons_append, Record.get_cons, hx, if_false]
    exact ih hm

theorem Record.get_set_ne (r : Record) (k k1 : String) (v : JsVal) (h : k1 ≠ k) :
    (Record.set r k v).get k1 = r.get k1 := by
  unfold Record.set
  split
  · exact Record.get_map_ne r k k1 v h
  · exact Record.get_append_ne r k k1 v h

theorem Record.get_set_self (r : Record) (k : String) (v : JsVal) :
    (Record.set r k v).get k = v := by
  unfold Record.set
  split
  · exact Record.get_map_self r k v (by assumption)
  · exact Record.get_append_self r k v (by assumption)

namespace Dashboard

theorem canCancelOf_iff (status : JsVal) :
    canCancelOf status = true ↔
      status = JsVal.prim (Prim.str "Scheduled") ∨ status = JsVal.prim (Prim.str "Confirmed") := by
  simp [canCancelOf]

theorem formatAppointment_get (P : Platform) (apt out : Record)
    (h : formatAppointment P apt = .ok out) :
    out.get "canCancel" = JsVal.prim (Prim.bool (canCancelOf (apt.get "status"))) ∧
    ∀ k, k ∉ computedFields → out.get k = apt.get k := by
  unfold formatAppointment at h
  cases hs : serviceNamesOf (apt.get "services") with
  | error e => simp [hs, bind, Except.bind] at h
  | ok names =>
    cases hp : formattedPriceOf (apt.get "totalPrice") with
    | error e => simp [hs, hp, bind, Except.bind] at h
    | ok price =>
      simp only [hs, hp, bind, Except.bind, pure, Except.pure, Except.ok.injEq] at h
      subst h
      refine ⟨Record.get_set_self _ _ _, fun k hk => ?_⟩
      simp only [computedFields, List.mem_cons, List.mem_singleton, not_or, List.not_mem_nil,
        not_false_eq_true, and_true] at hk
      obtain ⟨h1, h2, h3, h4, h5, h6, h7, h8⟩ := hk
      rw [Record.get_set_ne _ _ _ _ h8, Record.get_set_ne _ _ _ _ h7, Record.get_set_ne _ _ _ _ h6,
        Record.get_set_ne _ _ _ _ h5, Record.get_set_ne _ _ _ _ h4, Record.get_set_ne _ _ _ _ h3,
        Record.get_set_ne _ _ _ _ h2, Record.get_set_ne _ _ _ _ h1]

theorem formattedPriceOf_returns_iff (v : JsVal) :
    (∃ price, formattedPriceOf v = .ok price) ↔ priceFormattable v = true := by
  unfold formattedPriceOf priceFormattable
  cases v with
  | prim p =>
    cases p with
    | undefined => simp [JsVal.truthy, Prim.truthy]
    | null => simp [JsVal.truthy, Prim.truthy]
    | bool b => cases b <;> simp [JsVal.truthy, Prim.truthy]
    | num n =>
      by_cases hn : n = 0
      · simp [JsVal.truthy, Prim.truthy, hn]
      · simp [JsVal.truthy, Prim.truthy, hn]
    | str t =>
      by_cases ht : t = ""
      · simp [JsVal.truthy, Prim.truthy, ht]
      · simp [JsVal.truthy, Prim.truthy, ht]
  | obj o => simp [JsVal.truthy]
  | arr items => simp [JsVal.truthy]

theorem mapServiceName_returns (items : List (Nullable Fields))
    (h : allObjects items = true) : ∃ names, mapServiceName items = .ok names := by
  induction items with
  | nil => exact ⟨[], rfl⟩
  | cons x more ih =>
    cases x with
    | null => simp [allObjects] at h
    | undefined => simp [allObjects] at h
    | val o =>
      have hmore : allObjects more = true := by
        simpa [allObjects] using h
      obtain ⟨names, hn⟩ := ih hmore
      exact ⟨Fields.get o "serviceName" :: names, by simp [mapServiceName, hn]⟩

theorem allObjects_of_mapServiceName (items : List (Nullable Fields)) (names : List Prim)
    (h : mapServiceName items = .ok names) : allObjects items = true := by
  induction items generalizing names with
  | nil => rfl
  | cons x more ih =>
    cases x with
    | null => simp [mapServiceName] at h
    | undefined => simp [mapServiceName] at h
    | val o =>
      cases hm : mapServiceName more with
      | error e => simp [mapServiceName, hm] at h
      | ok rest =>
        have := ih rest hm
        simpa [allObjects] using this

theorem serviceNamesOf_returns_iff (v : JsVal) :
    (∃ names, serviceNamesOf v = .ok names) ↔ servicesFormattable v = true := by
  unfold serviceNamesOf servicesFormattable
  cases v with
  | prim p => cases p <;> simp
  | obj o => simp
  | arr items =>
    dsimp only
    constructor
    · rintro ⟨names, h⟩
      cases hm : mapServiceName items with
      | error e => simp [hm] at h
      | ok ns => exact allObjects_of_mapServiceName items ns hm
    · intro h
      obtain ⟨ns, hn⟩ := mapServiceName_returns items h
      exact ⟨joinNames ns, by simp [hn]⟩

theorem formatAppointment_returns (P : Platform) (apt : Record) (h : formattable apt = true) :
    ∃ out, formatAppointment P apt = .ok out := by
  unfold formattable at h
  simp only [Bool.and_eq_true] at h
  obtain ⟨h1, h2⟩ := h
  obtain ⟨names, hs⟩ := (serviceNamesOf_returns_iff _).2 h1
  obtain ⟨price, hp⟩ := (formattedPriceOf_returns_iff _).2 h2
  unfold formatAppointment
  simp only [hs, hp, bind, Except.bind, pure, Except.pure]
  exact ⟨_, rfl⟩

theorem formattable_of_returns (P : Platform) (apt out : Record)
    (h : formatAppointment P apt = .ok out) : formattable apt = true := by
  unfold formatAppointment at h
  cases hs : serviceNamesOf (apt.get "services") with
  | error e => simp [hs, bind, Except.bind] at h
  | ok names =>
    cases hp : formattedPriceOf (apt.get "totalPrice") with
    | error e => simp [hs, hp, bind, Except.bind] at h
    | ok price =>
      unfold formattable
      simp only [Bool.and_eq_true]
      exact ⟨(serviceNamesOf_returns_iff _).1 ⟨names, hs⟩,
        (formattedPriceOf_returns_iff _).1 ⟨price, hp⟩⟩

/-- C10, as stated, fails: an appointment record that has a property named
`canCancel` does not keep it; `formatAppointment` replaces its value by the
computed one. -/
theorem canCancel_field_replaced :
    ∃ out, formatAppointment Platform.sample aptWithCanCancel = .ok out ∧
      aptWithCanCancel.get "canCancel" = JsVal.prim (Prim.str "yes") ∧
      out.get "canCancel" = JsVal.prim (Prim.bool false) ∧
      out.get "canCancel" ≠ aptWithCanCancel.get "canCancel" := by
  refine ⟨_, rfl, ?_, ?_, ?_⟩ <;> decide

/-- C10, amended: `formatAppointment(apt)` returns exactly when `services`
is nullish or an array with no `null` or `undefined` element and
`totalPrice` is falsy or a number (with `services: [null]` it throws a
`TypeError`); whenever it returns, `canCancel` is true if and only if
`apt.status` is `'Scheduled'` or `'Confirmed'`, and every field of `apt`
(`status` included) whose name is not that of one of the eight computed
display fields is carried over unchanged. -/
theorem formatAppointment_canCancel (P : Platform) (apt : Record) :
    ((∃ out, formatAppointment P apt = .ok out) ↔ formattable apt = true) ∧
    formatAppointment P aptWithNullService = .error typeError ∧
    ∀ out, formatAppointment P apt = .ok out →
      (out.get "canCancel" = JsVal.prim (Prim.bool true) ↔
        (apt.get "status" = JsVal.prim (Prim.str "Scheduled") ∨
          apt.get "status" = JsVal.prim (Prim.str "Confirmed"))) ∧
      (out.get "canCancel" = JsVal.prim (Prim.bool true) ∨
        out.get "canCancel" = JsVal.prim (Prim.bool false)) ∧
      out.get "status" = apt.get "status" ∧
      ∀ k, k ∉ computedFields → out.get k = apt.get k := by
  refine ⟨⟨fun ⟨out, h⟩ => formattable_of_returns P apt out h, formatAppointment_returns P apt⟩,
    rfl, fun out h => ?_⟩
  obtain ⟨hc, hk⟩ := formatAppointment_get P apt out h
  refine ⟨?_, ?_, hk "status" (by decide), hk⟩
  · rw [hc, ← canCancelOf_iff]
    simp
  · rw [hc]
    cases canCancelOf (apt.get "status") <;> simp

/-- An instance of C10 as amended: a scheduled appointment is formatted,
can be cancelled, and keeps its `appointmentId`. -/
theorem formatAppointment_canCancel_witness :
    formattable aptScheduled = true ∧
    (∃ out, formatAppointment Platform.sample aptScheduled = .ok out ∧
      out.get "canCancel" = JsVal.prim (Prim.bool true) ∧
      out.get "appointmentId" = JsVal.prim (Prim.str "a01")) := by
  refine ⟨by decide, ?_⟩
  obtain ⟨out, h⟩ := (formatAppointment_canCancel Platform.sample aptScheduled).1.2 (by decide)
  have hall := (formatAppointment_canCancel Platform.sample aptScheduled).2.2 out h
  refine ⟨out, h, hall.1.2 (Or.inl (by decide)), ?_⟩
  rw [hall.2.2.2 "appointmentId" (by decide)]
  decide

end Dashboard

/-! ## Properties of the sign-in widget -/

set_option maxRecDepth 100000

namespace GoogleAuth

theorem restoreFromStorage_page (P : Platform) (w : World) :
    (restoreFromStorage P w).state.page = w.page := by
  unfold restoreFromStorage
  dsimp only
  split
  · split
    · rfl
    · split <;> rfl
  · rfl

theorem restoreFromStorage_self (P : Platform) (w : World) :
    untouchedByRestore w.self (restoreFromStorage P w).state.self := by
  unfold untouchedByRestore restoreFromStorage
  dsimp only
  split
  · split
    · exact ⟨rfl, rfl, rfl, rfl⟩
    · split <;> exact ⟨rfl, rfl, rfl, rfl⟩
  · exact ⟨rfl, rfl, rfl, rfl⟩

theorem invoke_module (P : Platform) (m : Module) (self : State) :
    (stepModule P m (.invoke self)).signInEventDispatched = m.signInEventDispatched ∧
    (stepModule P m (.invoke self)).sessionAlreadyChecked = true ∧
    (stepModule P m (.invoke self)).browser.sessionStorage = m.browser.sessionStorage ∧
    ((stepModule P m (.invoke self)).trace = m.trace ∨
      ((stepModule P m (.invoke self)).trace = m.trace ++ [Effect.removeItem SESSION_KEY] ∧
        m.sessionAlreadyChecked = false) ∨
      (∃ email, (stepModule P m (.invoke self)).trace = m.trace ++ [Effect.getSession email] ∧
        m.sessionAlreadyChecked = false)) := by
  unfold stepModule checkExistingSessionBegin
  dsimp only
  by_cases hc : m.sessionAlreadyChecked = true
  · rw [if_pos hc]
    simp only [Begun.page]
    rw [restoreFromStorage_page]
    exact ⟨rfl, hc, rfl, Or.inl rfl⟩
  · rw [if_neg hc]
    have hc' : m.sessionAlreadyChecked = false := by simpa using hc
    by_cases hs : storedTruthy ((getStorage m.browser).getItem SESSION_KEY) = true
    · rw [if_pos hs]
      cases hp : P.jsonParse (((getStorage m.browser).getItem SESSION_KEY).getD "") with
      | error e => exact ⟨rfl, rfl, rfl, Or.inr (Or.inl ⟨rfl, hc'⟩)⟩
      | ok sessionData =>
        dsimp only
        by_cases hn : sessionData.nullish = true
        · rw [if_pos hn]
          exact ⟨rfl, rfl, rfl, Or.inr (Or.inl ⟨rfl, hc'⟩)⟩
        · rw [if_neg hn]
          exact ⟨rfl, rfl, rfl, Or.inr (Or.inr ⟨_, rfl, hc'⟩)⟩
    · rw [if_neg hs]
      exact ⟨rfl, rfl, rfl, Or.inl rfl⟩

theorem dispatchSignInEvent_truthy (session : JsVal) (w : World) (h : session.truthy = true) :
    ∃ detail, dispatchSignInEvent session w = Completion.normal (emit (Effect.signin detail) w) := by
  unfold dispatchSignInEvent
  have hn : session.nullish = false := by
    cases session with
    | prim p => cases p <;> simp_all [JsVal.truthy, JsVal.nullish, Prim.truthy]
    | obj o => rfl
    | arr a => rfl
  rw [hn]
  exact ⟨_, rfl⟩

theorem settle_module (P : Platform) (m : Module) (self : State) (resp : Except JsErr JsVal) :
    (stepModule P m (.settle self resp)).sessionAlreadyChecked = m.sessionAlreadyChecked ∧
    (((stepModule P m (.settle self resp)).trace = m.trace ∧
        (stepModule P m (.settle self resp)).signInEventDispatched = m.signInEventDispatched) ∨
      ((stepModule P m (.settle self resp)).trace = m.trace ++ [Effect.removeItem SESSION_KEY] ∧
        (stepModule P m (.settle self resp)).signInEventDispatched = m.signInEventDispatched) ∨
      (∃ detail, (stepModule P m (.settle self resp)).trace = m.trace ++ [Effect.signin detail] ∧
        m.signInEventDispatched = false ∧
        (stepModule P m (.settle self resp)).signInEventDispatched = true)) := by
  unfold stepModule checkExistingSessionSettle
  dsimp only
  cases resp with
  | error e => exact ⟨rfl, Or.inr (Or.inl ⟨rfl, rfl⟩)⟩
  | ok serverSession =>
    dsimp only
    by_cases ht : serverSession.truthy = true
    · rw [if_pos ht]
      by_cases hd : m.signInEventDispatched = true
      · simp only [hd, Bool.not_true, Bool.false_eq_true, if_false]
        exact ⟨rfl, Or.inl ⟨rfl, hd⟩⟩
      · have hd' : m.signInEventDispatched = false := by simpa using hd
        simp only [hd', Bool.not_false, if_true]
        obtain ⟨detail, hdis⟩ := dispatchSignInEvent_truthy serverSession
          { page := { m with signInEventDispatched := true },
            self := { self with
              _userSession := serverSession
              userName := fullName serverSession
              isSignedIn := true } } ht
        rw [hdis]
        exact ⟨rfl, Or.inr (Or.inr ⟨detail, rfl, trivial, rfl⟩)⟩
    · rw [if_neg ht]
      exact ⟨rfl, Or.inr (Or.inl ⟨rfl, rfl⟩)⟩

theorem countP_append_singleton (p : Effect → Bool) (l : List Effect) (e : Effect) :
    (l ++ [e]).countP p = l.countP p + (if p e then 1 else 0) := by
  rw [List.countP_append]
  simp [List.countP_cons]

theorem step_getSession_budget (P : Platform) (m : Module) (st : Step) :
    getSessionCalls (stepModule P m st).trace
        + (if (stepModule P m st).sessionAlreadyChecked then 0 else 1)
      ≤ getSessionCalls m.trace + (if m.sessionAlreadyChecked then 0 else 1) := by
  cases st with
  | invoke self =>
    obtain ⟨_, h2, _, h4⟩ := invoke_module P m self
    rw [h2]
    rcases h4 with h | ⟨h, hf⟩ | ⟨email, h, hf⟩
    · rw [h]; simp
    · rw [h, hf]; unfold getSessionCalls; rw [countP_append_singleton]; simp
    · rw [h, hf]; unfold getSessionCalls; rw [countP_append_singleton]; simp
  | settle self resp =>
    obtain ⟨h1, h2⟩ := settle_module P m self resp
    rw [h1]
    rcases h2 with ⟨h, _⟩ | ⟨h, _⟩ | ⟨detail, h, _, _⟩
    · rw [h]
    · rw [h]; unfold getSessionCalls; rw [countP_append_singleton]; simp
    · rw [h]; unfold getSessionCalls; rw [countP_append_singleton]; simp

theorem step_signin_budget (P : Platform) (m : Module) (st : Step) :
    signinEvents (stepModule P m st).trace
        + (if (stepModule P m st).signInEventDispatched then 0 else 1)
      ≤ signinEvents m.trace + (if m.signInEventDispatched then 0 else 1) := by
  cases st with
  | invoke self =>
    obtain ⟨h1, _, _, h4⟩ := invoke_module P m self
    rw [h1]
    rcases h4 with h | ⟨h, _⟩ | ⟨email, h, _⟩
    · rw [h]
    · rw [h]; unfold signinEvents; rw [countP_append_singleton]; simp
    · rw [h]; unfold signinEvents; rw [countP_append_singleton]; simp
  | settle self resp =>
    obtain ⟨_, h2⟩ := settle_module P m self resp
    rcases h2 with ⟨h, hf⟩ | ⟨h, hf⟩ | ⟨detail, h, hf, hf'⟩
    · rw [h, hf]
    · rw [h, hf]; unfold signinEvents; rw [countP_append_singleton]; simp
    · rw [h, hf, hf']; unfold signinEvents; rw [countP_append_singleton]; simp

theorem run_budgets (P : Platform) (steps : List Step) (m : Module) :
    getSessionCalls (runSteps P m steps).trace
        + (if (runSteps P m steps).sessionAlreadyChecked then 0 else 1)
      ≤ getSessionCalls m.trace + (if m.sessionAlreadyChecked then 0 else 1) ∧
    signinEvents (runSteps P m steps).trace
        + (if (runSteps P m steps).signInEventDispatched then 0 else 1)
      ≤ signinEvents m.trace + (if m.signInEventDispatched then 0 else 1) := by
  induction steps generalizing m with
  | nil => exact ⟨le_refl _, le_refl _⟩
  | cons st more ih =>
    have h := ih (stepModule P m st)
    exact ⟨le_trans h.1 (step_getSession_budget P m st), le_trans h.2 (step_signin_budget P m st)⟩

theorem step_checked (P : Platform) (m : Module) (st : Step)
    (h : m.sessionAlreadyChecked = true) : (stepModule P m st).sessionAlreadyChecked = true := by
  cases st with
  | invoke self => exact (invoke_module P m self).2.1
  | settle self resp => rw [(settle_module P m self resp).1]; exact h

theorem run_checked (P : Platform) (steps : List Step) (m : Module)
    (h : m.sessionAlreadyChecked = true) : (runSteps P m steps).sessionAlreadyChecked = true := by
  induction steps generalizing m with
  | nil => exact h
  | cons st more ih => exact ih (stepModule P m st) (step_checked P m st h)

theorem run_counts (P : Platform) (m : Module) (steps : List Step) :
    getSessionCalls (runSteps P m steps).trace ≤ getSessionCalls m.trace + 1 ∧
    signinEvents (runSteps P m steps).trace ≤ signinEvents m.trace + 1 := by
  have hb := run_budgets P steps m
  constructor
  · have := hb.1
    split at this <;> split at this <;> omega
  · have := hb.2
    split at this <;> split at this <;> omega

theorem restoreFromStorage_restores (P : Platform) (w : World) (text : String) (v : JsVal)
    (hget : (getStorage w.page.browser).getItem SESSION_KEY = some text) (hne : text ≠ "")
    (hparse : P.jsonParse text = .ok v) (hv : v.nullish = false) :
    (restoreFromStorage P w).thrown = none ∧
    (restoreFromStorage P w).state.self.userName = fullName v ∧
    (restoreFromStorage P w).state.self.isSignedIn = true ∧
    (restoreFromStorage P w).state.self._userSession = v ∧
    (restoreFromStorage P w).state.self.isLoading = false := by
  unfold restoreFromStorage
  have ht : storedTruthy (some text) = true := by simpa [storedTruthy] using hne
  simp only [hget, ht, if_true, Option.getD_some, hparse, hv, Bool.false_eq_true, if_false]
  exact ⟨rfl, rfl, rfl, rfl, rfl⟩

/-- C6: over any sequence of `checkExistingSession` invocations on any
instances (and of the settling of their pending calls), with no sign-out,
`getSession` is called at most once more and `checkExistingSession`
dispatches `signin` at most once more (at most once each from a freshly
loaded module); and once one invocation has begun, every later one takes the
restoring branch: it leaves the module state (flags, storage, trace: no
remote call, no event) as it was, touches no field of the instance but
`_userSession`, `userName`, `isSignedIn` and `isLoading`, and sets
`userName` and `isSignedIn` from the session that storage holds. -/
theorem session_checked_once (P : Platform) (m : Module) (steps : List Step) :
    getSessionCalls (runSteps P m steps).trace ≤ getSessionCalls m.trace + 1 ∧
    signinEvents (runSteps P m steps).trace ≤ signinEvents m.trace + 1 ∧
    getSessionCalls (runSteps P (Module.fresh m.browser) steps).trace ≤ 1 ∧
    signinEvents (runSteps P (Module.fresh m.browser) steps).trace ≤ 1 ∧
    ∀ (first self : State),
      checkExistingSessionBegin P
          { page := runSteps P m (Step.invoke first :: steps), self := self }
        = Begun.done (restoreFromStorage P
          { page := runSteps P m (Step.invoke first :: steps), self := self }) ∧
      (restoreFromStorage P
          { page := runSteps P m (Step.invoke first :: steps), self := self }).state.page
        = runSteps P m (Step.invoke first :: steps) ∧
      untouchedByRestore self (restoreFromStorage P
          { page := runSteps P m (Step.invoke first :: steps), self := self }).state.self ∧
      ∀ text v,
        (getStorage (runSteps P m (Step.invoke first :: steps)).browser).getItem SESSION_KEY
            = some text →
        text ≠ "" → P.jsonParse text = .ok v → v.nullish = false →
        (restoreFromStorage P
            { page := runSteps P m (Step.invoke first :: steps), self := self }).thrown = none ∧
        (restoreFromStorage P
            { page := runSteps P m (Step.invoke first :: steps), self := self }).state.self.userName
          = fullName v ∧
        (restoreFromStorage P
            { page := runSteps P m (Step.invoke first :: steps), self := self }).state.self.isSignedIn
          = true := by
  have hb := run_counts P m steps
  have hf := run_counts P (Module.fresh m.browser) steps
  have h0 : getSessionCalls (Module.fresh m.browser).trace = 0 := rfl
  have h1 : signinEvents (Module.fresh m.browser).trace = 0 := rfl
  refine ⟨hb.1, hb.2, by omega, by omega, fun first self =>
    ⟨?_, restoreFromStorage_page P _, restoreFromStorage_self P _, ?_⟩⟩
  · have hchk : (runSteps P m (Step.invoke first :: steps)).sessionAlreadyChecked = true :=
      run_checked P steps _ (invoke_module P m first).2.1
    unfold checkExistingSessionBegin
    simp only [hchk, if_true]
  · intro text v hget hne hparse hv
    have h := restoreFromStorage_restores P
      { page := runSteps P m (Step.invoke first :: steps), self := self } text v hget hne hparse hv
    exact ⟨h.1, h.2.1, h.2.2.1⟩

/-- An instance of C6: a first instance checks the stored session and the
server confirms it (one `getSession`, one `signin`); a second instance then
restores `userName` and `isSignedIn` from storage. -/
theorem session_checked_once_witness :
    getSessionCalls (runSteps Platform.sample returningModule
      (Step.invoke (init (Prim.str "client-id")) :: firstCheck)).trace = 1 ∧
    signinEvents (runSteps Platform.sample returningModule
      (Step.invoke (init (Prim.str "client-id")) :: firstCheck)).trace = 1 ∧
    (getStorage (runSteps Platform.sample returningModule
      (Step.invoke (init (Prim.str "client-id")) :: firstCheck)).browser).getItem SESSION_KEY
        = some "alice-session" ∧
    (restoreFromStorage Platform.sample
      { page := runSteps Platform.sample returningModule
          (Step.invoke (init (Prim.str "client-id")) :: firstCheck),
        self := init (Prim.str "client-id") }).state.self.userName = "Alice Ames" ∧
    (restoreFromStorage Platform.sample
      { page := runSteps Platform.sample returningModule
          (Step.invoke (init (Prim.str "client-id")) :: firstCheck),
        self := init (Prim.str "client-id") }).state.self.isSignedIn = true := by
  have h := ((session_checked_once Platform.sample returningModule firstCheck).2.2.2.2
    (init (Prim.str "client-id")) (init (Prim.str "client-id"))).2.2.2 "alice-session"
    (JsVal.obj [("email", Prim.str "alice@example.com"), ("firstName", Prim.str "Alice"),
      ("lastName", Prim.str "Ames"), ("contactId", Prim.str "003A")])
    (by decide) (by decide) rfl (by decide)
  exact ⟨by decide, by decide, by decide, h.2.1, h.2.2⟩

theorem messageOr_ne_empty (e : JsErr) (fallback : String) (h : fallback ≠ "") :
    e.messageOr fallback ≠ "" := by
  unfold JsErr.messageOr
  split
  · split
    · rename_i hm
      simpa using hm
    · exact h
  · exact h

theorem Storage.getItem_removeItem_ne (st : Storage) (key k : String) (h : k ≠ key) :
    (Storage.removeItem st key).getItem k = st.getItem k := by
  induction st with
  | nil => rfl
  | cons x more ih =>
    obtain ⟨a, b⟩ := x
    unfold Storage.removeItem at *
    by_cases ha : a = key
    · have hak : ¬ a = k := fun e => h (by rw [← e, ha])
      simp only [List.filter_cons, ha, bne_self_eq_false, Bool.false_eq_true, if_false]
      rw [ih]
      simp only [Storage.getItem, ← ha, hak, if_false]
    · have : (a != key) = true := by simpa using ha
      simp only [List.filter_cons, this, if_true, Storage.getItem]
      rw [ih]

theorem Storage.getItem_setItem_self (st : Storage) (key value : String) :
    (Storage.setItem st key value).getItem key = some value := by
  simp [Storage.setItem, Storage.getItem]

theorem Storage.getItem_setItem_ne (st : Storage) (key value k : String) (h : k ≠ key) :
    (Storage.setItem st key value).getItem k = st.getItem k := by
  have hk : ¬ key = k := fun e => h e.symm
  simp only [Storage.setItem, Storage.getItem, hk, if_false]
  exact Storage.getItem_removeItem_ne st key k h

theorem dispatchSignInEvent_of_not_nullish (session : JsVal) (w : World)
    (h : session.nullish = false) :
    ∃ detail, dispatchSignInEvent session w = Completion.normal (emit (Effect.signin detail) w) := by
  unfold dispatchSignInEvent
  rw [h]
  exact ⟨_, rfl⟩

theorem handleCredentialResponse_ok (P : Platform) (credential : Prim)
    (resp : Except JsErr JsVal) (w : World)
    (hok : (handleCredentialResponse P credential resp w).state.self.error = "") :
    ∃ session detail, resp = .ok session ∧ session.nullish = false ∧
      (decodeJwt P credential).nullish = false ∧
      (handleCredentialResponse P credential resp w).thrown = none ∧
      (handleCredentialResponse P credential resp w).state.page.trace = w.page.trace ++
        [Effect.initializeSession ((decodeJwt P credential).prop "email")
            (((decodeJwt P credential).prop "given_name").or (Prim.str ""))
            (((decodeJwt P credential).prop "family_name").or (Prim.str "")),
          Effect.setItem SESSION_KEY (P.jsonStringify (sessionData
            ((decodeJwt P credential).prop "email")
            (((decodeJwt P credential).prop "picture").or (Prim.str "")) session)),
          Effect.signin detail] ∧
      (handleCredentialResponse P credential resp w).state.page.browser =
        { w.page.browser with
          localStorage := w.page.browser.localStorage.setItem SESSION_KEY
            (P.jsonStringify (sessionData ((decodeJwt P credential).prop "email")
              (((decodeJwt P credential).prop "picture").or (Prim.str "")) session)) } := by
  have hne : ∀ e : JsErr, e.messageOr "Sign-in failed. Please try again." ≠ "" :=
    fun e => messageOr_ne_empty e _ (by decide)
  unfold handleCredentialResponse at hok ⊢
  dsimp only at hok ⊢
  by_cases hp : (decodeJwt P credential).nullish = true
  · rw [if_pos hp] at hok
    exact absurd hok (hne typeError)
  · rw [if_neg hp] at hok ⊢
    cases resp with
    | error e => exact absurd hok (hne e)
    | ok session =>
      dsimp only at hok ⊢
      by_cases hs : session.nullish = true
      · rw [if_pos hs] at hok
        exact absurd hok (hne typeError)
      · rw [if_neg hs]
        have hs' : session.nullish = false := by simpa using hs
        obtain ⟨detail, hd⟩ := dispatchSignInEvent_of_not_nullish session
          { (setItem SESSION_KEY (P.jsonStringify (sessionData
              ((decodeJwt P credential).prop "email")
              (((decodeJwt P credential).prop "picture").or (Prim.str "")) session))
              (emit (Effect.initializeSession ((decodeJwt P credential).prop "email")
                (((decodeJwt P credential).prop "given_name").or (Prim.str ""))
                (((decodeJwt P credential).prop "family_name").or (Prim.str "")))
                { w with self := { w.self with isLoading := true, error := "" } })) with
            self := { w.self with
              isLoading := true
              error := ""
              _userSession := session
              userName := fullName session
              userPicture := ((decodeJwt P credential).prop "picture").or (Prim.str "")
              isSignedIn := true } } hs'
        refine ⟨session, detail, rfl, hs', by simpa using hp, ?_, ?_, ?_⟩
        · show (tryCatchFinally (dispatchSignInEvent session _) _ _).thrown = none
          erw [hd]
          rfl
        · show (tryCatchFinally (dispatchSignInEvent session _) _ _).state.page.trace = _
          erw [hd]
          simp [tryCatchFinally, Completion.normal, emit, setItem]
        · show (tryCatchFinally (dispatchSignInEvent session _) _ _).state.page.browser = _
          erw [hd]
          rfl

/-- C8, at two credentials: with the same server response, a credential
that decodes to Alice's payload and one that decodes to Mallory's make
`handleCredentialResponse` call `initializeSession` with different arguments
(the decoded email, given name and family name), and store different blobs. -/
theorem decoded_payload_sent_to_server :
    decodeJwt Platform.sample (Prim.str "h.a.s") ≠ decodeJwt Platform.sample (Prim.str "h.b.s") ∧
    (handleCredentialResponse Platform.sample (Prim.str "h.a.s") (.ok sampleSession)
        sampleWorld).state.page.trace.head?
      = some (Effect.initializeSession (Prim.str "alice@example.com") (Prim.str "Alice")
          (Prim.str "Ames")) ∧
    (handleCredentialResponse Platform.sample (Prim.str "h.b.s") (.ok sampleSession)
        sampleWorld).state.page.trace.head?
      = some (Effect.initializeSession (Prim.str "mallory@example.com") (Prim.str "Mallory")
          (Prim.str "Moss")) ∧
    (handleCredentialResponse Platform.sample (Prim.str "h.a.s") (.ok sampleSession)
        sampleWorld).state.page.browser.localStorage.getItem SESSION_KEY
      ≠ (handleCredentialResponse Platform.sample (Prim.str "h.b.s") (.ok sampleSession)
        sampleWorld).state.page.browser.localStorage.getItem SESSION_KEY := by
  refine ⟨?_, ?_, ?_, ?_⟩ <;> decide

/-- C9, as stated, fails: after a successful sign-in the stored blob is not
the serialisation of the nine listed fields; it also holds `userType`. -/
theorem stored_blob_has_userType :
    (handleCredentialResponse Platform.sample (Prim.str "h.a.s") (.ok sampleSession)
        sampleWorld).state.self.error = "" ∧
    (handleCredentialResponse Platform.sample (Prim.str "h.a.s") (.ok sampleSession)
        sampleWorld).state.page.browser.localStorage.getItem SESSION_KEY
      = some (Platform.sample.jsonStringify (sessionData (Prim.str "alice@example.com")
          (Prim.str "https://img.example/a.png") sampleSession)) ∧
    (handleCredentialResponse Platform.sample (Prim.str "h.a.s") (.ok sampleSession)
        sampleWorld).state.page.browser.localStorage.getItem SESSION_KEY
      ≠ some (Platform.sample.jsonStringify (listedSessionData (Prim.str "alice@example.com")
          (Prim.str "https://img.example/a.png") sampleSession)) ∧
    Fields.get (sessionData (Prim.str "alice@example.com")
        (Prim.str "https://img.example/a.png") sampleSession) "userType" = Prim.str "Customer" ∧
    "userType" ∉ (listedSessionData (Prim.str "alice@example.com")
        (Prim.str "https://img.example/a.png") sampleSession).map Prod.fst := by
  refine ⟨?_, ?_, ?_, ?_, ?_⟩ <;> decide

theorem storageWrites_append (a b : List Effect) :
    storageWrites (a ++ b) = storageWrites a ++ storageWrites b := by
  simp [storageWrites]

/-- C9, amended: after every successful `handleCredentialResponse` exactly
one browser-storage key has been written, `'stressless_user_session'` in
`localStorage` (the key and the area `Dashboard.checkStoredSession` reads),
and the blob under it is `JSON.stringify` of the object with `email`,
`firstName`, `lastName`, `contactId`, `stylistId`, `isStylist`, `isCustomer`,
`userType`, `title` and `picture`, where `email` and `picture` come from the
decoded credential and the other fields from the server's session response. -/
theorem session_blob_stored (P : Platform) (credential : Prim) (resp : Except JsErr JsVal)
    (w : World) (hok : (handleCredentialResponse P credential resp w).state.self.error = "") :
    ∃ session, resp = .ok session ∧
      storageWrites (handleCredentialResponse P credential resp w).state.page.trace
        = storageWrites w.page.trace ++ [Effect.setItem SESSION_KEY (storedBlob P credential session)] ∧
      (handleCredentialResponse P credential resp w).state.page.browser.localStorage.getItem
          Dashboard.SESSION_KEY = some (storedBlob P credential session) ∧
      (∀ k, k ≠ SESSION_KEY →
        (handleCredentialResponse P credential resp w).state.page.browser.localStorage.getItem k
          = w.page.browser.localStorage.getItem k) ∧
      (handleCredentialResponse P credential resp w).state.page.browser.sessionStorage
        = w.page.browser.sessionStorage ∧
      SESSION_KEY = "stressless_user_session" ∧
      storedBlob P credential session = P.jsonStringify
        [("email", (decodeJwt P credential).prop "email"),
         ("firstName", session.prop "firstName"),
         ("lastName", session.prop "lastName"),
         ("contactId", session.prop "contactId"),
         ("stylistId", session.prop "stylistId"),
         ("isStylist", session.prop "isStylist"),
         ("isCustomer", session.prop "isCustomer"),
         ("userType", session.prop "userType"),
         ("title", session.prop "title"),
         ("picture", ((decodeJwt P credential).prop "picture").or (Prim.str ""))] := by
  obtain ⟨session, detail, hr, _, _, _, htrace, hbrowser⟩ :=
    handleCredentialResponse_ok P credential resp w hok
  refine ⟨session, hr, ?_, ?_, fun k hk => ?_, ?_, rfl, rfl⟩
  · rw [htrace, storageWrites_append]
    rfl
  · rw [hbrowser]
    exact Storage.getItem_setItem_self _ _ _
  · rw [hbrowser]
    exact Storage.getItem_setItem_ne _ _ _ _ hk
  · rw [hbrowser]

/-- An instance of C9 as amended: Alice signs in on a freshly loaded page
and her blob is under the key the dashboard reads. -/
theorem session_blob_stored_witness :
    (handleCredentialResponse Platform.sample (Prim.str "h.a.s") (.ok sampleSession)
        sampleWorld).state.self.error = "" ∧
    ∃ session, Except.ok sampleSession = (Except.ok session : Except JsErr JsVal) ∧
      (handleCredentialResponse Platform.sample (Prim.str "h.a.s") (.ok sampleSession)
          sampleWorld).state.page.browser.localStorage.getItem Dashboard.SESSION_KEY
        = some (storedBlob Platform.sample (Prim.str "h.a.s") session) := by
  refine ⟨by decide, ?_⟩
  obtain ⟨session, h1, _, h3, _⟩ :=
    session_blob_stored Platform.sample (Prim.str "h.a.s") (.ok sampleSession) sampleWorld
      (by decide)
  exact ⟨session, h1, h3⟩

end GoogleAuth

/-! ## Booking without a signed-in customer -/

namespace BookingModal

/-- C14: in every state whose `contactId` is `null`, `undefined` or `''`,
`handleConfirmBooking` does not call `createAppointment` and dispatches no
`bookingsuccess` (the trace stays as it was), sets `error` to
`'Please sign in to book an appointment'`, and leaves `isOpen`,
`currentStep` and every selection field (every field but `error`, in fact)
unchanged. -/
theorem handleConfirmBooking_signed_out (P : Platform) (r : Except JsErr Unit) (s : State)
    (h : s.contactId = Prim.null ∨ s.contactId = Prim.undefined ∨ s.contactId = Prim.str "") :
    (handleConfirmBooking P r s).thrown = none ∧
    (handleConfirmBooking P r s).state.trace = s.trace ∧
    (handleConfirmBooking P r s).state.error = "Please sign in to book an appointment" ∧
    (handleConfirmBooking P r s).state.isOpen = s.isOpen ∧
    (handleConfirmBooking P r s).state.currentStep = s.currentStep ∧
    (handleConfirmBooking P r s).state.selectedStylistId = s.selectedStylistId ∧
    (handleConfirmBooking P r s).state.selectedStylist = s.selectedStylist ∧
    (handleConfirmBooking P r s).state.selectedServices = s.selectedServices ∧
    (handleConfirmBooking P r s).state.selectedDate = s.selectedDate ∧
    (handleConfirmBooking P r s).state.selectedSlot = s.selectedSlot ∧
    (handleConfirmBooking P r s).state.notes = s.notes ∧
    (handleConfirmBooking P r s).state
      = { s with error := "Please sign in to book an appointment" } := by
  have hf : s.contactId.truthy = false := by
    rcases h with h | h | h <;> rw [h] <;> rfl
  unfold handleConfirmBooking
  simp only [hf, Bool.not_false, if_true]
  exact ⟨rfl, rfl, rfl, rfl, rfl, rfl, rfl, rfl, rfl, rfl, rfl, rfl⟩

/-- An instance of C14: a booking filled in to the last step, with an empty
`contactId`, is not sent, whatever the server would have answered. -/
theorem handleConfirmBooking_signed_out_witness :
    filledButSignedOut.contactId = Prim.str "" ∧
    (handleConfirmBooking Platform.sample (.ok ()) filledButSignedOut).state.trace = [] ∧
    (handleConfirmBooking Platform.sample (.ok ()) filledButSignedOut).state.error
      = "Please sign in to book an appointment" ∧
    (handleConfirmBooking Platform.sample (.ok ()) filledButSignedOut).state.currentStep = 4 :=
  ⟨rfl,
    (handleConfirmBooking_signed_out Platform.sample (.ok ()) filledButSignedOut
      (Or.inr (Or.inr rfl))).2.1,
    (handleConfirmBooking_signed_out Platform.sample (.ok ()) filledButSignedOut
      (Or.inr (Or.inr rfl))).2.2.1,
    (handleConfirmBooking_signed_out Platform.sample (.ok ()) filledButSignedOut
      (Or.inr (Or.inr rfl))).2.2.2.2.1⟩

end BookingModal

/-! ## Which appointments the dashboard asks for -/

namespace Dashboard

theorem storeAppointments_trace (P : Platform) (lists : List Record × List Record) (s : State) :
    (storeAppointments P lists s).state.trace = s.trace := by
  unfold storeAppointments
  split
  · rfl
  · split <;> rfl

theorem loadStylistAppointments_trace (P : Platform)
    (r : Except JsErr (List Record × List Record)) (s : State) :
    (loadStylistAppointments P r s).state.trace = s.trace ++
      [Effect.getStylistAppointments (s.userSession.prop "stylistId"),
        Effect.getStylistPastAppointments (s.userSession.prop "stylistId")] := by
  unfold loadStylistAppointments
  cases r with
  | error e => rfl
  | ok lists =>
    dsimp only
    rw [storeAppointments_trace]

theorem loadCustomerAppointments_trace (P : Platform)
    (r : Except JsErr (List Record × List Record)) (s : State) :
    (loadCustomerAppointments P r s).state.trace = s.trace ++
      [Effect.getCustomerAppointments (s.userSession.prop "contactId"),
        Effect.getCustomerPastAppointments (s.userSession.prop "contactId")] := by
  unfold loadCustomerAppointments
  cases r with
  | error e => rfl
  | ok lists =>
    dsimp only
    rw [storeAppointments_trace]

theorem tryCatchFinally_trace (body : Completion State) (msg : String) :
    (tryCatchFinally body
      (fun err s => Completion.normal { s with error := Prim.str (err.messageOr msg) })
      (fun s => { s with isLoading := false })).state.trace = body.state.trace := by
  unfold tryCatchFinally
  dsimp only
  split <;> rfl

/-- C13: `loadAppointments` chooses its remote procedures by the session.
With a session whose `isStylist` is set and that has a `stylistId`, exactly
`getStylistAppointments` and `getStylistPastAppointments` are called, with
that `stylistId`; otherwise, with a session that has a `contactId`, exactly
`getCustomerAppointments` and `getCustomerPastAppointments`, with that
`contactId`; with no session, or a session with neither, no procedure is
called and both appointment lists stay as they were. -/
theorem loadAppointments_by_user_type (P : Platform)
    (r : Except JsErr (List Record × List Record)) (s : State) :
    (s.userSession.truthy = true → (s.userSession.prop "isStylist").truthy = true →
      (s.userSession.prop "stylistId").truthy = true →
      (loadAppointments P r s).state.trace = s.trace ++
        [Effect.getStylistAppointments (s.userSession.prop "stylistId"),
          Effect.getStylistPastAppointments (s.userSession.prop "stylistId")]) ∧
    (s.userSession.truthy = true →
      ¬ ((s.userSession.prop "isStylist").truthy = true
          ∧ (s.userSession.prop "stylistId").truthy = true) →
      (s.userSession.prop "contactId").truthy = true →
      (loadAppointments P r s).state.trace = s.trace ++
        [Effect.getCustomerAppointments (s.userSession.prop "contactId"),
          Effect.getCustomerPastAppointments (s.userSession.prop "contactId")]) ∧
    (s.userSession.truthy = false ∨
        (¬ ((s.userSession.prop "isStylist").truthy = true
            ∧ (s.userSession.prop "stylistId").truthy = true)
          ∧ (s.userSession.prop "contactId").truthy = false) →
      (loadAppointments P r s).thrown = none ∧
      (loadAppointments P r s).state.trace = s.trace ∧
      (loadAppointments P r s).state.upcomingAppointments = s.upcomingAppointments ∧
      (loadAppointments P r s).state.pastAppointments = s.pastAppointments) := by
  refine ⟨fun h1 h2 h3 => ?_, fun h1 h2 h3 => ?_, fun h => ?_⟩
  · unfold loadAppointments
    simp only [h1, Bool.not_true, Bool.false_eq_true, if_false, h2, h3, Bool.and_self, if_true]
    rw [tryCatchFinally_trace, loadStylistAppointments_trace]
  · have h2' : ((s.userSession.prop "isStylist").truthy
        && (s.userSession.prop "stylistId").truthy) = false := by
      cases ha : (s.userSession.prop "isStylist").truthy
      · rfl
      · cases hb : (s.userSession.prop "stylistId").truthy
        · rfl
        · exact absurd ⟨ha, hb⟩ h2
    unfold loadAppointments
    simp only [h1, Bool.not_true, Bool.false_eq_true, if_false, h2', h3, if_true]
    rw [tryCatchFinally_trace, loadCustomerAppointments_trace]
  · rcases h with h | ⟨h2, h3⟩
    · unfold loadAppointments
      simp only [h, Bool.not_false, if_true]
      exact ⟨rfl, rfl, rfl, rfl⟩
    · have h2' : ((s.userSession.prop "isStylist").truthy
          && (s.userSession.prop "stylistId").truthy) = false := by
        cases ha : (s.userSession.prop "isStylist").truthy
        · rfl
        · cases hb : (s.userSession.prop "stylistId").truthy
          · rfl
          · exact absurd ⟨ha, hb⟩ h2
      unfold loadAppointments
      by_cases h1 : s.userSession.truthy = true
      · simp only [h1, Bool.not_true, Bool.false_eq_true, if_false, h2', h3]
        exact ⟨rfl, rfl, rfl, rfl⟩
      · have h1' : s.userSession.truthy = false := by simpa using h1
        simp only [h1', Bool.not_false, if_true]
        exact ⟨rfl, rfl, rfl, rfl⟩

/-- An instance of C13 in each of its cases: a stylist (who is also a
contact) gets the two stylist procedures, a customer the two customer
procedures, a session with neither identifier and a dashboard without a
session get none. -/
theorem loadAppointments_by_user_type_witness :
    (loadAppointments Platform.sample (.ok ([], [])) signedInStylist).state.trace =
      [Effect.getStylistAppointments (Prim.str "a0S1"),
        Effect.getStylistPastAppointments (Prim.str "a0S1")] ∧
    (loadAppointments Platform.sample (.ok ([], [])) signedInCustomer).state.trace =
      [Effect.getCustomerAppointments (Prim.str "003A"),
        Effect.getCustomerPastAppointments (Prim.str "003A")] ∧
    (loadAppointments Platform.sample (.ok ([], [])) signedInNobody).state.trace = [] ∧
    (loadAppointments Platform.sample (.ok ([], [])) signedInNobody).state.upcomingAppointments
      = [aptScheduled] ∧
    (loadAppointments Platform.sample (.ok ([], [])) init).state.trace = [] :=
  ⟨(loadAppointments_by_user_type Platform.sample (.ok ([], [])) signedInStylist).1
      (by decide) (by decide) (by decide),
    (loadAppointments_by_user_type Platform.sample (.ok ([], [])) signedInCustomer).2.1
      (by decide) (by decide) (by decide),
    ((loadAppointments_by_user_type Platform.sample (.ok ([], [])) signedInNobody).2.2
      (Or.inr ⟨by decide, by decide⟩)).2.1,
    ((loadAppointments_by_user_type Platform.sample (.ok ([], [])) signedInNobody).2.2
      (Or.inr ⟨by decide, by decide⟩)).2.2.1,
    ((loadAppointments_by_user_type Platform.sample (.ok ([], [])) init).2.2
      (Or.inl (by decide))).2.1⟩

end Dashboard

/-! ## Signing out -/

namespace GoogleAuth

theorem Storage.getItem_removeItem_self (st : Storage) (key : String) :
    (Storage.removeItem st key).getItem key = none := by
  induction st with
  | nil => rfl
  | cons x more ih =>
    obtain ⟨a, b⟩ := x
    unfold Storage.removeItem at *
    by_cases ha : a = key
    · simp only [List.filter_cons, ha, bne_self_eq_false, Bool.false_eq_true, if_false]
      exact ih
    · have hne : (a != key) = true := by simpa using ha
      simp only [List.filter_cons, hne, if_true, Storage.getItem, ha, if_false]
      exact ih

theorem handleSignOut_page (googleLoaded : Bool) (w : World) :
    (handleSignOut googleLoaded w).page.sessionAlreadyChecked = false ∧
    (handleSignOut googleLoaded w).page.signInEventDispatched = false ∧
    (handleSignOut googleLoaded w).page.browser.localStorage
      = Storage.removeItem w.page.browser.localStorage SESSION_KEY ∧
    (handleSignOut googleLoaded w).page.browser.sessionStorage = w.page.browser.sessionStorage := by
  unfold handleSignOut
  cases googleLoaded <;> exact ⟨rfl, rfl, rfl, rfl⟩

theorem handleSignOut_self (googleLoaded : Bool) (w : World) :
    (handleSignOut googleLoaded w).self =
      { w.self with
        _userSession := JsVal.null
        userName := ""
        userPicture := Prim.str ""
        isSignedIn := false
        _googleInitialized := false } := by
  unfold handleSignOut
  cases googleLoaded <;> rfl

theorem checkExistingSession_no_session (P : Platform) (resp : Except JsErr JsVal) (w : World)
    (hflag : w.page.sessionAlreadyChecked = false)
    (hnone : (getStorage w.page.browser).getItem SESSION_KEY = none) :
    checkExistingSessionBegin P w = Begun.done (Completion.normal
      { page := { w.page with sessionAlreadyChecked := true },
        self := { w.self with isLoading := false } }) ∧
    checkExistingSession P resp w = Completion.normal
      { page := { w.page with sessionAlreadyChecked := true },
        self := { w.self with isLoading := false } } := by
  have hb : checkExistingSessionBegin P w = Begun.done (Completion.normal
      { page := { w.page with sessionAlreadyChecked := true },
        self := { w.self with isLoading := false } }) := by
    unfold checkExistingSessionBegin
    simp only [hflag, Bool.false_eq_true, if_false, hnone, storedTruthy]
    rfl
  refine ⟨hb, ?_⟩
  unfold checkExistingSession
  rw [hb]

/-- C12: after `handleSignOut`, from every prior state, the session key is
absent from storage, `getSession()` returns null, `checkSignedIn()` returns
false, `userName` and `userPicture` are empty and both module-level flags
are reset; the next `checkExistingSession`, on this instance or on any
other, then takes the full-check path (it sets the flag again), finds no
stored session, makes no server call (the trace stays as it was, nothing
escapes) and leaves `isSignedIn` as it was, which is false on this
instance. -/
theorem handleSignOut_resets (P : Platform) (googleLoaded : Bool) (w : World)
    (resp : Except JsErr JsVal) (self : State) :
    (getStorage (handleSignOut googleLoaded w).page.browser).getItem SESSION_KEY = none ∧
    (handleSignOut googleLoaded w).page.browser.localStorage.getItem Dashboard.SESSION_KEY
      = none ∧
    getSession (handleSignOut googleLoaded w).self = JsVal.null ∧
    checkSignedIn (handleSignOut googleLoaded w).self = false ∧
    (handleSignOut googleLoaded w).self.userName = "" ∧
    (handleSignOut googleLoaded w).self.userPicture = Prim.str "" ∧
    (handleSignOut googleLoaded w).page.sessionAlreadyChecked = false ∧
    (handleSignOut googleLoaded w).page.signInEventDispatched = false ∧
    (checkExistingSession P resp (handleSignOut googleLoaded w)).thrown = none ∧
    (checkExistingSession P resp (handleSignOut googleLoaded w)).state.page.trace
      = (handleSignOut googleLoaded w).page.trace ∧
    (checkExistingSession P resp (handleSignOut googleLoaded w)).state.page.sessionAlreadyChecked
      = true ∧
    (checkExistingSession P resp (handleSignOut googleLoaded w)).state.self.isSignedIn = false ∧
    (checkExistingSession P resp
        { page := (handleSignOut googleLoaded w).page, self := self }).thrown = none ∧
    (checkExistingSession P resp
        { page := (handleSignOut googleLoaded w).page, self := self }).state.page.trace
      = (handleSignOut googleLoaded w).page.trace ∧
    (checkExistingSession P resp
        { page := (handleSignOut googleLoaded w).page, self := self }).state.self.isSignedIn
      = self.isSignedIn := by
  obtain ⟨hf1, hf2, hls, _⟩ := handleSignOut_page googleLoaded w
  have hself := handleSignOut_self googleLoaded w
  have hnone : (getStorage (handleSignOut googleLoaded w).page.browser).getItem SESSION_KEY
      = none := by
    show (handleSignOut googleLoaded w).page.browser.localStorage.getItem SESSION_KEY = none
    rw [hls]
    exact Storage.getItem_removeItem_self _ _
  have h1 := (checkExistingSession_no_session P resp (handleSignOut googleLoaded w) hf1 hnone).2
  have h2 := (checkExistingSession_no_session P resp
    { page := (handleSignOut googleLoaded w).page, self := self } hf1 hnone).2
  refine ⟨hnone, hnone, ?_, ?_, ?_, ?_, hf1, hf2, ?_, ?_, ?_, ?_, ?_, ?_, ?_⟩
  · rw [getSession, hself]
  · rw [checkSignedIn, hself]
  · rw [hself]
  · rw [hself]
  · rw [h1]; rfl
  · rw [h1]; rfl
  · rw [h1]; rfl
  · rw [h1]
    show (handleSignOut googleLoaded w).self.isSignedIn = false
    rw [hself]
  · rw [h2]; rfl
  · rw [h2]; rfl
  · rw [h2]; rfl

end GoogleAuth

/-! ## The time an appointment displays -/

namespace Dashboard

theorem formatAppointment_formattedTime (P : Platform) (apt out : Record)
    (h : formatAppointment P apt = .ok out) :
    out.get "formattedTime" = JsVal.prim (Prim.str
      (if (apt.get "startTime").truthy then formatTime P (apt.get "startTime") else "")) := by
  unfold formatAppointment at h
  cases hs : serviceNamesOf (apt.get "services") with
  | error e => simp [hs, bind, Except.bind] at h
  | ok names =>
    cases hp : formattedPriceOf (apt.get "totalPrice") with
    | error e => simp [hs, hp, bind, Except.bind] at h
    | ok price =>
      simp only [hs, hp, bind, Except.bind, pure, Except.pure, Except.ok.injEq] at h
      subst h
      rw [Record.get_set_ne _ _ _ _ (by decide), Record.get_set_ne _ _ _ _ (by decide),
        Record.get_set_ne _ _ _ _ (by decide), Record.get_set_ne _ _ _ _ (by decide),
        Record.get_set_ne _ _ _ _ (by decide), Record.get_set_ne _ _ _ _ (by decide),
        Record.get_set_self]

theorem padStart2_two_digits (mm : Nat) (h : mm < 60) :
    padStart2 (toString mm) = String.mk [Nat.digitChar (mm / 10), Nat.digitChar (mm % 10)] := by
  interval_cases mm <;> decide

theorem formatTime_clockTime (P : Platform) (t : Nat) :
    formatTime P (JsVal.prim (Prim.num t)) = clockTime t := by
  have hh : ((t : Int) / 3600000) = ((t / 3600000 : Nat) : Int) := by omega
  have hm : (Int.tmod (t : Int) 3600000) / 60000 = (((t % 3600000) / 60000 : Nat) : Int) := by
    rw [Int.tmod_eq_emod (by omega) (by omega)]
    omega
  have hd : Int.tmod ((t / 3600000 : Nat) : Int) 12 = (((t / 3600000) % 12 : Nat) : Int) := by
    rw [Int.tmod_eq_emod (by omega) (by omega)]
    omega
  have hlt : (t % 3600000) / 60000 < 60 := by omega
  unfold formatTime clockTime
  simp only [toNumber]
  rw [hh, hm, hd]
  have hpad : padStart2 (toString (((t % 3600000) / 60000 : Nat) : Int))
      = String.mk [Nat.digitChar ((t % 3600000) / 60000 / 10),
          Nat.digitChar ((t % 3600000) / 60000 % 10)] :=
    padStart2_two_digits _ hlt
  rw [hpad]
  have hap : (if ((t / 3600000 : Nat) : Int) ≥ 12 then "PM" else "AM")
      = (if t / 3600000 < 12 then "AM" else "PM") := by
    by_cases h12 : t / 3600000 < 12
    · rw [if_pos h12, if_neg (by omega)]
    · rw [if_neg h12, if_pos (by omega)]
  rw [hap]
  have hhr : toString (if (((t / 3600000) % 12 : Nat) : Int) != 0
        then (((t / 3600000) % 12 : Nat) : Int) else 12)
      = BookingModal.decimalNat (if (t / 3600000) % 12 = 0 then 12 else (t / 3600000) % 12) := by
    rw [← BookingModal.nat_repr_eq_decimalNat]
    by_cases h0 : (t / 3600000) % 12 = 0
    · rw [if_pos h0, h0]
      rfl
    · rw [if_neg h0]
      have : ((((t / 3600000) % 12 : Nat) : Int) != 0) = true := by
        simp only [bne_iff_ne, ne_eq]
        omega
      rw [if_pos this]
      rfl
  rw [hhr]

/-- C11: for an appointment whose `startTime` is the number `t`,
`formatAppointment` yields the `formattedTime` the specification describes
(hour on the 12-hour clock, two-digit minutes, AM or PM, with the hour in
1..12 and the minutes in 00..59) for every `t` but 0; at `t = 0`, midnight,
it yields the empty string where the specification says `'12:00 AM'`. -/
theorem formattedTime_of_startTime (P : Platform) (apt out : Record) (t : Nat) :
    (∃ o, formatAppointment P aptAtMidnight = .ok o ∧
      o.get "formattedTime" = JsVal.prim (Prim.str "") ∧ clockTime 0 = "12:00 AM") ∧
    (apt.get "startTime" = JsVal.prim (Prim.num t) → formatAppointment P apt = .ok out →
      out.get "formattedTime"
        = JsVal.prim (Prim.str (if t = 0 then "" else clockTime t)) ∧
      1 ≤ (if (t / 3600000) % 12 = 0 then 12 else (t / 3600000) % 12) ∧
      (if (t / 3600000) % 12 = 0 then 12 else (t / 3600000) % 12) ≤ 12 ∧
      (t % 3600000) / 60000 ≤ 59) := by
  refine ⟨?_, fun hstart hout => ⟨?_, ?_, ?_, ?_⟩⟩
  · obtain ⟨o, ho⟩ := formatAppointment_returns P aptAtMidnight (by decide)
    refine ⟨o, ho, ?_, ?_⟩
    · rw [formatAppointment_formattedTime P aptAtMidnight o ho]
      rfl
    · rw [← formatTime_clockTime Platform.sample 0]
      decide
  · rw [formatAppointment_formattedTime P apt out hout, hstart]
    by_cases h0 : t = 0
    · subst h0
      rfl
    · have ht : (JsVal.prim (Prim.num (t : Int))).truthy = true := by
        simp only [JsVal.truthy, Prim.truthy, bne_iff_ne, ne_eq]
        omega
      rw [ht, if_neg h0, formatTime_clockTime]
      rfl
  · split <;> omega
  · split <;> omega
  · omega

/-- An instance of C11 off midnight: an appointment at 52 200 000 ms
displays `'2:30 PM'`. -/
theorem formattedTime_of_startTime_witness :
    aptScheduled.get "startTime" = JsVal.prim (Prim.num (52200000 : Nat)) ∧
    ∃ out, formatAppointment Platform.sample aptScheduled = .ok out ∧
      out.get "formattedTime" = JsVal.prim (Prim.str "2:30 PM") := by
  refine ⟨by decide, ?_⟩
  obtain ⟨out, hout⟩ := formatAppointment_returns Platform.sample aptScheduled (by decide)
  have h := ((formattedTime_of_startTime Platform.sample aptScheduled out 52200000).2
    (by decide) hout).1
  refine ⟨out, hout, ?_⟩
  rw [h, if_neg (by decide), ← formatTime_clockTime Platform.sample 52200000]
  decide

end Dashboard

/-! ## Failures across the three components -/

theorem Dashboard.loadAppointments_thrown (P : Platform)
    (r : Except JsErr (List Record × List Record)) (s : Dashboard.State) :
    (Dashboard.loadAppointments P r s).thrown = none := by
  unfold Dashboard.loadAppointments
  split
  · rfl
  · unfold tryCatchFinally
    dsimp only
    split <;> simp_all [Completion.normal]

theorem Dashboard.loadAppointments_failed (P : Platform) (e : JsErr) (s : Dashboard.State)
    (h : Dashboard.appointmentsWanted s = true) :
    (Dashboard.loadAppointments P (.error e) s).state.error
      = Prim.str (e.messageOr "Error loading appointments") := by
  unfold Dashboard.appointmentsWanted at h
  simp only [Bool.and_eq_true, Bool.or_eq_true] at h
  obtain ⟨h1, h2⟩ := h
  unfold Dashboard.loadAppointments
  simp only [h1, Bool.not_true, Bool.false_eq_true, if_false]
  by_cases hs : ((s.userSession.prop "isStylist").truthy
      && (s.userSession.prop "stylistId").truthy) = true
  · rw [if_pos hs]
    rfl
  · rw [if_neg hs]
    have hc : (s.userSession.prop "contactId").truthy = true := by
      rcases h2 with h2 | h2
      · exact absurd (by simpa using h2) hs
      · exact h2
    rw [if_pos hc]
    rfl

theorem Dashboard.checkStoredSession_thrown (P : Platform) (b : Browser)
    (r : Except JsErr (List Record × List Record)) (s : Dashboard.State) :
    (Dashboard.checkStoredSession P b r s).thrown = none := by
  unfold Dashboard.checkStoredSession Completion.andThen tryCatchBlock tryCatchFinally
  dsimp only
  split
  · rfl
  · rename_i e he
    split at he
    · rename_i hnone
      rw [hnone] at he
      exact absurd he (by simp)
    · exact absurd he (by simp [Completion.normal])

theorem GoogleAuth.checkExistingSession_full (P : Platform) (resp : Except JsErr JsVal)
    (w : GoogleAuth.World) (h : w.page.sessionAlreadyChecked = false) :
    (GoogleAuth.checkExistingSession P resp w).thrown = none ∧
    (GoogleAuth.checkExistingSession P resp w).state.self.error = w.self.error := by
  unfold GoogleAuth.checkExistingSession GoogleAuth.checkExistingSessionBegin
  simp only [h, Bool.false_eq_true, if_false]
  by_cases hs :
      storedTruthy ((GoogleAuth.getStorage w.page.browser).getItem GoogleAuth.SESSION_KEY) = true
  · simp only [hs, if_true]
    cases hp : P.jsonParse
        (((GoogleAuth.getStorage w.page.browser).getItem GoogleAuth.SESSION_KEY).getD "") with
    | error e => exact ⟨rfl, rfl⟩
    | ok sessionData =>
      dsimp only
      by_cases hn : sessionData.nullish = true
      · rw [if_pos hn]
        exact ⟨rfl, rfl⟩
      · rw [if_neg hn]
        dsimp only
        unfold GoogleAuth.checkExistingSessionSettle
        cases resp with
        | error e => exact ⟨rfl, rfl⟩
        | ok serverSession =>
          dsimp only
          by_cases ht : serverSession.truthy = true
          · rw [if_pos ht]
            by_cases hd : w.page.signInEventDispatched = true
            · simp only [GoogleAuth.emit, hd, Bool.not_true, Bool.false_eq_true, if_false]
              exact ⟨rfl, rfl⟩
            · have hd' : w.page.signInEventDispatched = false := by simpa using hd
              simp only [GoogleAuth.emit, hd', Bool.not_false, if_true]
              obtain ⟨detail, hdis⟩ := GoogleAuth.dispatchSignInEvent_truthy serverSession
                { page := { sessionAlreadyChecked := true, signInEventDispatched := true,
                            browser := w.page.browser,
                            trace := w.page.trace ++
                              [GoogleAuth.Effect.getSession (sessionData.prop "email")] },
                  self := { w.self with
                    _userSession := serverSession
                    userName := GoogleAuth.fullName serverSession
                    isSignedIn := true } } ht
              erw [hdis]
              exact ⟨rfl, rfl⟩
          · rw [if_neg ht]
            exact ⟨rfl, rfl⟩
  · simp only [hs, Bool.false_eq_true, if_false]
    exact ⟨rfl, rfl⟩

theorem GoogleAuth.getItem_after_removeItem (w : GoogleAuth.World) :
    (GoogleAuth.getStorage (GoogleAuth.removeItem GoogleAuth.SESSION_KEY w).page.browser).getItem
      GoogleAuth.SESSION_KEY = none := by
  show (Storage.removeItem w.page.browser.localStorage GoogleAuth.SESSION_KEY).getItem
    GoogleAuth.SESSION_KEY = none
  exact GoogleAuth.Storage.getItem_removeItem_self _ _

theorem GoogleAuth.checkExistingSession_rejected (P : Platform) (e : JsErr)
    (w : GoogleAuth.World) (text : String) (v : JsVal)
    (hflag : w.page.sessionAlreadyChecked = false)
    (hget : (GoogleAuth.getStorage w.page.browser).getItem GoogleAuth.SESSION_KEY = some text)
    (hne : text ≠ "") (hparse : P.jsonParse text = .ok v) (hv : v.nullish = false) :
    GoogleAuth.checkExistingSession P (.error e) w = Completion.normal
      (GoogleAuth.checkFinally (GoogleAuth.removeItem GoogleAuth.SESSION_KEY
        (GoogleAuth.emit (GoogleAuth.Effect.getSession (v.prop "email"))
          { w with page := { w.page with sessionAlreadyChecked := true } }))) := by
  have ht : storedTruthy (some text) = true := by simpa [storedTruthy] using hne
  unfold GoogleAuth.checkExistingSession GoogleAuth.checkExistingSessionBegin
  simp only [hflag, Bool.false_eq_true, if_false, hget, ht, if_true, Option.getD_some, hparse,
    hv]
  rfl

theorem GoogleAuth.checkExistingSession_unparsable (P : Platform) (e : JsErr)
    (resp : Except JsErr JsVal) (w : GoogleAuth.World) (text : String)
    (hflag : w.page.sessionAlreadyChecked = false)
    (hget : (GoogleAuth.getStorage w.page.browser).getItem GoogleAuth.SESSION_KEY = some text)
    (hne : text ≠ "") (hparse : P.jsonParse text = .error e) :
    GoogleAuth.checkExistingSession P resp w = Completion.normal
      (GoogleAuth.checkFinally (GoogleAuth.removeItem GoogleAuth.SESSION_KEY
        { w with page := { w.page with sessionAlreadyChecked := true } })) := by
  have ht : storedTruthy (some text) = true := by simpa [storedTruthy] using hne
  unfold GoogleAuth.checkExistingSession GoogleAuth.checkExistingSessionBegin
  simp only [hflag, Bool.false_eq_true, if_false, hget, ht, if_true, Option.getD_some, hparse]
  rfl

/-- C7, as stated, fails: when `getAvailableStylists` is rejected,
`Dashboard.loadStylists` catches the failure and empties the list, and the
`error` field stays `undefined`: no string is set. -/
theorem dashboard_loadStylists_sets_no_error :
    (Dashboard.loadStylists (.error serverDown) Dashboard.init).thrown = none ∧
    (Dashboard.loadStylists (.error serverDown) Dashboard.init).state.stylists = [] ∧
    (Dashboard.loadStylists (.error serverDown) Dashboard.init).state.error = Prim.undefined ∧
    ∀ m : String,
      (Dashboard.loadStylists (.error serverDown) Dashboard.init).state.error ≠ Prim.str m := by
  refine ⟨rfl, rfl, rfl, fun m h => ?_⟩
  exact Prim.noConfusion h

/-- C7, amended: when the underlying call fails, the failure is caught (the
operation does not throw) and `error` is set to a non-empty string by
`BookingModal.loadStylists`, `loadServices`, `loadTimeSlots` and
`handleConfirmBooking`, by `Dashboard.loadAppointments` and
`handleCancelAppointment`, and by `GoogleAuth.handleCredentialResponse`.
The failure is caught and `error` is left as it was by
`Dashboard.loadStylists` (which sets `stylists` to the empty list), by
`Dashboard.checkStoredSession` (which changes nothing but `isLoading`), and
by `GoogleAuth.checkExistingSession` when it runs its full check (module
flag not yet set), which removes the stored session when `getSession` is
rejected or the stored string does not parse.  `decodeJwt` returns `{}` when
the credential is no string, has no second segment, or `atob`,
`decodeURIComponent` or `JSON.parse` throws, and the parsed payload
otherwise. -/
theorem failures_caught (P : Platform) (e : JsErr) :
    (∀ s, (BookingModal.loadStylists (.error e) s).thrown = none ∧
      (BookingModal.loadStylists (.error e) s).state.error = "Error loading stylists") ∧
    (∀ s, (BookingModal.loadServices (.error e) s).thrown = none ∧
      (BookingModal.loadServices (.error e) s).state.error = "Error loading services") ∧
    (∀ s, BookingModal.slotsWanted s = true →
      (BookingModal.loadTimeSlots (.error e) s).thrown = none ∧
      (BookingModal.loadTimeSlots (.error e) s).state.error = "Error loading available times") ∧
    (∀ s, s.contactId.truthy = true →
      (BookingModal.handleConfirmBooking P (.error e) s).thrown = none ∧
      (BookingModal.handleConfirmBooking P (.error e) s).state.error
        = e.messageOr "Error creating appointment. Please try again." ∧
      (BookingModal.handleConfirmBooking P (.error e) s).state.error ≠ "") ∧
    (∀ s, Dashboard.appointmentsWanted s = true →
      (Dashboard.loadAppointments P (.error e) s).thrown = none ∧
      (Dashboard.loadAppointments P (.error e) s).state.error
        = Prim.str (e.messageOr "Error loading appointments") ∧
      e.messageOr "Error loading appointments" ≠ "") ∧
    (∀ s id name rl,
      (Dashboard.handleCancelAppointment P id name true (.error e) rl s).thrown = none ∧
      (Dashboard.handleCancelAppointment P id name true (.error e) rl s).state.error
        = Prim.str (e.messageOr "Error cancelling appointment") ∧
      e.messageOr "Error cancelling appointment" ≠ "") ∧
    (∀ w credential,
      (GoogleAuth.handleCredentialResponse P credential (.error e) w).thrown = none ∧
      (GoogleAuth.handleCredentialResponse P credential (.error e) w).state.self.error ≠ "" ∧
      ((GoogleAuth.decodeJwt P credential).nullish = false →
        (GoogleAuth.handleCredentialResponse P credential (.error e) w).state.self.error
          = e.messageOr "Sign-in failed. Please try again.")) ∧
    (∀ s, (Dashboard.loadStylists (.error e) s).thrown = none ∧
      (Dashboard.loadStylists (.error e) s).state.error = s.error ∧
      (Dashboard.loadStylists (.error e) s).state.stylists = []) ∧
    (∀ s b r v, b.localStorage.getItem Dashboard.SESSION_KEY = some v → v ≠ "" →
      P.jsonParse v = .error e →
      (Dashboard.checkStoredSession P b r s).thrown = none ∧
      (Dashboard.checkStoredSession P b r s).state = { s with isLoading := false }) ∧
    (∀ w resp, w.page.sessionAlreadyChecked = false →
      (GoogleAuth.checkExistingSession P resp w).thrown = none ∧
      (GoogleAuth.checkExistingSession P resp w).state.self.error = w.self.error) ∧
    (∀ w text v, w.page.sessionAlreadyChecked = false →
      (GoogleAuth.getStorage w.page.browser).getItem GoogleAuth.SESSION_KEY = some text →
      text ≠ "" → P.jsonParse text = .ok v → v.nullish = false →
      (GoogleAuth.checkExistingSession P (.error e) w).thrown = none ∧
      (GoogleAuth.checkExistingSession P (.error e) w).state.self.error = w.self.error ∧
      (GoogleAuth.checkExistingSession P (.error e) w).state.self.isSignedIn
        = w.self.isSignedIn ∧
      (GoogleAuth.checkExistingSession P (.error e) w).state.self.isLoading = false ∧
      (GoogleAuth.getStorage
        (GoogleAuth.checkExistingSession P (.error e) w).state.page.browser).getItem
          GoogleAuth.SESSION_KEY = none ∧
      (GoogleAuth.checkExistingSession P (.error e) w).state.page.trace = w.page.trace ++
        [GoogleAuth.Effect.getSession (v.prop "email"),
          GoogleAuth.Effect.removeItem GoogleAuth.SESSION_KEY]) ∧
    (∀ w resp text, w.page.sessionAlreadyChecked = false →
      (GoogleAuth.getStorage w.page.browser).getItem GoogleAuth.SESSION_KEY = some text →
      text ≠ "" → P.jsonParse text = .error e →
      (GoogleAuth.checkExistingSession P resp w).thrown = none ∧
      (GoogleAuth.checkExistingSession P resp w).state.self.error = w.self.error ∧
      (GoogleAuth.checkExistingSession P resp w).state.self.isSignedIn = w.self.isSignedIn ∧
      (GoogleAuth.checkExistingSession P resp w).state.self.isLoading = false ∧
      (GoogleAuth.getStorage
        (GoogleAuth.checkExistingSession P resp w).state.page.browser).getItem
          GoogleAuth.SESSION_KEY = none ∧
      (GoogleAuth.checkExistingSession P resp w).state.page.trace = w.page.trace ++
        [GoogleAuth.Effect.removeItem GoogleAuth.SESSION_KEY]) ∧
    (∀ token, (∀ t, token ≠ Prim.str t) → GoogleAuth.decodeJwt P token = JsVal.obj []) ∧
    (∀ t, (GoogleAuth.splitChars '.' t.toList)[1]? = none →
      GoogleAuth.decodeJwt P (Prim.str t) = JsVal.obj []) ∧
    (∀ t seg, (GoogleAuth.splitChars '.' t.toList)[1]? = some seg →
      P.atob (String.mk (GoogleAuth.replaceChar '_' '/' (GoogleAuth.replaceChar '-' '+' seg)))
        = .error e →
      GoogleAuth.decodeJwt P (Prim.str t) = JsVal.obj []) ∧
    (∀ t seg bin, (GoogleAuth.splitChars '.' t.toList)[1]? = some seg →
      P.atob (String.mk (GoogleAuth.replaceChar '_' '/' (GoogleAuth.replaceChar '-' '+' seg)))
        = .ok bin →
      P.decodeURIComponent (String.mk (bin.toList.map GoogleAuth.percentEncode).flatten)
        = .error e →
      GoogleAuth.decodeJwt P (Prim.str t) = JsVal.obj []) ∧
    (∀ t seg bin text, (GoogleAuth.splitChars '.' t.toList)[1]? = some seg →
      P.atob (String.mk (GoogleAuth.replaceChar '_' '/' (GoogleAuth.replaceChar '-' '+' seg)))
        = .ok bin →
      P.decodeURIComponent (String.mk (bin.toList.map GoogleAuth.percentEncode).flatten)
        = .ok text →
      (P.jsonParse text = .error e → GoogleAuth.decodeJwt P (Prim.str t) = JsVal.obj []) ∧
      (∀ v, P.jsonParse text = .ok v → GoogleAuth.decodeJwt P (Prim.str t) = v)) := by
  refine ⟨fun s => ⟨rfl, rfl⟩, fun s => ⟨rfl, rfl⟩, fun s h => ?_, fun s h => ?_, fun s h => ?_,
    fun s id name rl => ⟨rfl, rfl, GoogleAuth.messageOr_ne_empty e _ (by decide)⟩,
    fun w credential => ?_, fun s => ⟨rfl, rfl, rfl⟩, fun s b r v hv hne hp => ?_,
    fun w resp h => GoogleAuth.checkExistingSession_full P resp w h,
    fun w text v hflag hget hne hparse hv => ?_,
    fun w resp text hflag hget hne hparse => ?_,
    fun token h => ?_, fun t h => ?_, fun t seg h1 h2 => ?_, fun t seg bin h1 h2 h3 => ?_,
    fun t seg bin text h1 h2 h3 => ⟨fun h4 => ?_, fun v h4 => ?_⟩⟩
  · unfold BookingModal.loadTimeSlots
    rw [if_pos h]
    exact ⟨rfl, rfl⟩
  · unfold BookingModal.handleConfirmBooking
    simp only [h, Bool.not_true, Bool.false_eq_true, if_false]
    exact ⟨rfl, rfl, GoogleAuth.messageOr_ne_empty e _ (by decide)⟩
  · exact ⟨Dashboard.loadAppointments_thrown P _ s, Dashboard.loadAppointments_failed P e s h,
      GoogleAuth.messageOr_ne_empty e _ (by decide)⟩
  · unfold GoogleAuth.handleCredentialResponse
    dsimp only
    by_cases hn : (GoogleAuth.decodeJwt P credential).nullish = true
    · rw [if_pos hn]
      exact ⟨rfl,
        GoogleAuth.messageOr_ne_empty typeError "Sign-in failed. Please try again." (by decide),
        fun hf => absurd hn (by simp [hf])⟩
    · rw [if_neg hn]
      exact ⟨rfl,
        GoogleAuth.messageOr_ne_empty e "Sign-in failed. Please try again." (by decide),
        fun _ => rfl⟩
  · refine ⟨Dashboard.checkStoredSession_thrown P b r s, ?_⟩
    unfold Dashboard.checkStoredSession
    have ht : storedTruthy (some v) = true := by
      simpa [storedTruthy] using hne
    simp only [hv, ht, if_true, Option.getD_some, hp]
    rfl
  · rw [GoogleAuth.checkExistingSession_rejected P e w text v hflag hget hne hparse hv]
    exact ⟨rfl, rfl, rfl, rfl, GoogleAuth.getItem_after_removeItem _, by
      simp [Completion.normal, GoogleAuth.checkFinally, GoogleAuth.removeItem, GoogleAuth.emit]⟩
  · rw [GoogleAuth.checkExistingSession_unparsable P e resp w text hflag hget hne hparse]
    exact ⟨rfl, rfl, rfl, rfl, GoogleAuth.getItem_after_removeItem _, rfl⟩
  · cases token with
    | str t => exact absurd rfl (h t)
    | undefined => rfl
    | null => rfl
    | bool b => rfl
    | num n => rfl
  · unfold GoogleAuth.decodeJwt
    simp only [h]
  · unfold GoogleAuth.decodeJwt
    simp only [h1, h2]
  · unfold GoogleAuth.decodeJwt
    simp only [h1, h2, h3]
  · unfold GoogleAuth.decodeJwt
    simp only [h1, h2, h3, h4]
  · unfold GoogleAuth.decodeJwt
    simp only [h1, h2, h3, h4]

/-- An instance of C7 as amended, where something does fail: a slot load
and a booking the server rejects, appointments that fail to load, a stored
session that does not parse (for the dashboard and for the sign-in widget),
a stored session the server rejects, and a credential whose payload is not
JSON. -/
theorem failures_caught_witness :
    BookingModal.slotsWanted BookingModal.readyForSlots = true ∧
    (BookingModal.loadTimeSlots (.error serverDown) BookingModal.readyForSlots).state.error
      = "Error loading available times" ∧
    (BookingModal.handleConfirmBooking Platform.sample (.error serverDown)
      BookingModal.readyForSlots).state.error = "Server unavailable" ∧
    Dashboard.appointmentsWanted Dashboard.signedInCustomer = true ∧
    (Dashboard.loadAppointments Platform.sample (.error serverDown)
      Dashboard.signedInCustomer).state.error = Prim.str "Server unavailable" ∧
    (Dashboard.checkStoredSession Platform.sample garbledStorage (.error serverDown)
      Dashboard.init).state.error = Prim.undefined ∧
    (GoogleAuth.getStorage GoogleAuth.returningWorld.page.browser).getItem
      GoogleAuth.SESSION_KEY = some "alice-session" ∧
    (GoogleAuth.getStorage (GoogleAuth.checkExistingSession Platform.sample (.error serverDown)
      GoogleAuth.returningWorld).state.page.browser).getItem GoogleAuth.SESSION_KEY = none ∧
    (GoogleAuth.checkExistingSession Platform.sample (.error serverDown)
      GoogleAuth.returningWorld).thrown = none ∧
    (GoogleAuth.checkExistingSession Platform.sample (.error serverDown)
      GoogleAuth.garbledWorld).state.page.trace
      = [GoogleAuth.Effect.removeItem GoogleAuth.SESSION_KEY] ∧
    GoogleAuth.decodeJwt Platform.sample (Prim.str "h.c.s") = JsVal.obj [] :=
  ⟨by decide,
    ((failures_caught Platform.sample serverDown).2.2.1 BookingModal.readyForSlots
      (by decide)).2,
    ((failures_caught Platform.sample serverDown).2.2.2.1 BookingModal.readyForSlots
      (by decide)).2.1,
    by decide,
    ((failures_caught Platform.sample serverDown).2.2.2.2.1 Dashboard.signedInCustomer
      (by decide)).2.1,
    congrArg Dashboard.State.error
      ((failures_caught Platform.sample typeError).2.2.2.2.2.2.2.2.1 Dashboard.init
        garbledStorage (.error serverDown) "not json" (by decide) (by decide) rfl).2,
    by decide,
    ((failures_caught Platform.sample serverDown).2.2.2.2.2.2.2.2.2.2.1
      GoogleAuth.returningWorld "alice-session"
      (JsVal.obj [("email", Prim.str "alice@example.com"), ("firstName", Prim.str "Alice"),
        ("lastName", Prim.str "Ames"), ("contactId", Prim.str "003A")])
      (by decide) (by decide) (by decide) rfl (by decide)).2.2.2.2.1,
    ((failures_caught Platform.sample serverDown).2.2.2.2.2.2.2.2.2.2.1
      GoogleAuth.returningWorld "alice-session"
      (JsVal.obj [("email", Prim.str "alice@example.com"), ("firstName", Prim.str "Alice"),
        ("lastName", Prim.str "Ames"), ("contactId", Prim.str "003A")])
      (by decide) (by decide) (by decide) rfl (by decide)).1,
    ((failures_caught Platform.sample typeError).2.2.2.2.2.2.2.2.2.2.2.1
      GoogleAuth.garbledWorld (.error serverDown) "not json"
      (by decide) (by decide) (by decide) rfl).2.2.2.2.2,
    ((failures_caught Platform.sample typeError).2.2.2.2.2.2.2.2.2.2.2.2.2.2.2.2
      "h.c.s" ['c'] "c" "%63" (by decide) rfl rfl).1 rfl⟩
